import Mathlib

/-!
Shallow embedding of the SPY intraday options trading strategies
(`spy_ema_chad.py`, `spy_orb_strategy.py`, `spy_rev_strategy.py`,
`spy_bosk_strategy.py`).

Modelling conventions:
* Prices and volumes are rationals (`ℚ`); pandas float columns carry exact
  decimal literals in all scenarios of interest, so `ℚ` mirrors them.
* A bar series (`pandas.DataFrame` of 5-minute bars) is a length `n : ℕ`
  together with a row function `ts : ℕ → Bar`; `df.iloc[-2]` is `ts (n - 2)`
  and `df.iloc[-1]` is `ts (n - 1)`.
* Times of day ("08:30:00" etc.) are seconds since local midnight (`ℕ`);
  `datetime.now(tz)` is an environment input, as are IB market quotes.
* A pandas value that can be NaN because of insufficient history (RSI) is an
  `Option ℚ`; `ewm(...).mean()` over a NaN-free column is never NaN, so EMA
  and ATR columns are plain `ℚ`.
* Interactive Brokers calls are abstracted into per-cycle environment
  records (current time, fetched bars, quotes); order placement becomes an
  emitted event list.
-/

/-- One OHLCV row of the 5-minute DataFrame.  `day` is `date.dt.date`
(calendar day) as an integer index, `tsec` the time of day in seconds.
The field `open_` is the source's `open` column (a Lean keyword). -/
structure Bar where
  day : ℤ
  tsec : ℕ
  open_ : ℚ
  high : ℚ
  low : ℚ
  close : ℚ
  volume : ℚ
deriving DecidableEq

/-- `Series.ewm(span := s, adjust := False).mean()` at row `i`:
`y 0 = x 0`, `y (i+1) = α * x (i+1) + (1 - α) * y i` with `α = 2/(s+1)`.
Used for every EMA column and for the ATR smoothing. -/
def ewmAt (span : ℕ) (x : ℕ → ℚ) : ℕ → ℚ
  | 0 => x 0
  | i + 1 =>
    let α : ℚ := 2 / (span + 1)
    α * x (i + 1) + (1 - α) * ewmAt span x i

/-- `delta.where(delta > 0, 0)`: the positive part of a delta. -/
def gainPart (q : ℚ) : ℚ := if 0 < q then q else 0

/-- `-delta.where(delta < 0, 0)`: the (nonnegative) magnitude of a negative
delta. -/
def lossPart (q : ℚ) : ℚ := if q < 0 then -q else 0

/-- `(delta.where(delta > 0, 0)).rolling(window := p).mean()` at row `i`
(defined, i.e. non-NaN, exactly when `p ≤ i`, since `delta = close.diff()`
is NaN at row 0): the mean of the positive parts of the last `p` deltas. -/
def gainAvg (p : ℕ) (c : ℕ → ℚ) (i : ℕ) : ℚ :=
  (∑ j in Finset.Icc (i + 1 - p) i, gainPart (c j - c (j - 1))) / p

/-- `(-delta.where(delta < 0, 0)).rolling(window := p).mean()` at row `i`. -/
def lossAvg (p : ℕ) (c : ℕ → ℚ) (i : ℕ) : ℚ :=
  (∑ j in Finset.Icc (i + 1 - p) i, lossPart (c j - c (j - 1))) / p

/-- The `rsi` column of `SPYREVStrategy.calculate_indicators` at row `i`:
`rs = gain / loss`, `rsi = 100 - 100 / (1 + rs)`.
`none` models NaN.  For `i < p` the rolling window still contains the NaN
of `delta` at row 0 (or is too short), so the value is NaN.  For `p ≤ i`
the float arithmetic gives: `loss = 0, gain = 0` → `rs = 0/0 = NaN`;
`loss = 0, gain > 0` → `rs = +inf`, `rsi = 100 - 100/inf = 100`;
`loss > 0` → the ordinary formula. -/
def rsiAt (p : ℕ) (c : ℕ → ℚ) (i : ℕ) : Option ℚ :=
  if i < p then none
  else
    let gain := gainAvg p c i
    let loss := lossAvg p c i
    if loss = 0 then (if gain = 0 then none else some 100)
    else some (100 - 100 / (1 + gain / loss))

/-- `typical_price` column of `SPYEMAChad.calculate_indicators`. -/
def typical_price (b : Bar) : ℚ := (b.high + b.low + b.close) / 3

/-- `volume_x_price` column. -/
def volume_x_price (b : Bar) : ℚ := typical_price b * b.volume

/-- `df.groupby('day')['volume'].cumsum()` at row `i`: the sum of the
volumes of all rows up to and including `i` whose calendar day equals row
`i`'s day. -/
def cum_vol (ts : ℕ → Bar) (i : ℕ) : ℚ :=
  ∑ j in Finset.range (i + 1), if (ts j).day = (ts i).day then (ts j).volume else 0

/-- `df.groupby('day')['volume_x_price'].cumsum()` at row `i`. -/
def cum_vol_price (ts : ℕ → Bar) (i : ℕ) : ℚ :=
  ∑ j in Finset.range (i + 1),
    if (ts j).day = (ts i).day then volume_x_price (ts j) else 0

/-- The `vwap` column: `cum_vol_price / cum_vol`. -/
def vwapAt (ts : ℕ → Bar) (i : ℕ) : ℚ := cum_vol_price ts i / cum_vol ts i

/-- The true-range series of `SPYBOSKStrategy.calculate_indicators`:
`max(high - low, |high - prev_close|, |low - prev_close|)`; at row 0 the
shifted terms are NaN and `pandas.DataFrame.max(axis=1)` skips them. -/
def trAt (ts : ℕ → Bar) : ℕ → ℚ
  | 0 => (ts 0).high - (ts 0).low
  | i + 1 =>
    max ((ts (i + 1)).high - (ts (i + 1)).low)
      (max |(ts (i + 1)).high - (ts i).close| |(ts (i + 1)).low - (ts i).close|)

/-- The `atr` column: `tr.ewm(span := atr_period, adjust := False).mean()`. -/
def atrAt (atr_period : ℕ) (ts : ℕ → Bar) (i : ℕ) : ℚ :=
  ewmAt atr_period (trAt ts) i

/-! ## Common vocabulary -/

/-- Position side: the source strings "CALL" / "PUT". -/
inductive OptionSide
  | call
  | put
deriving DecidableEq

/-- Underlying direction: the source strings "LONG" / "SHORT". -/
inductive Direction
  | long
  | short
deriving DecidableEq

/-- RSI setup state of `SPYREVStrategy`: "LONG_SETUP" / "SHORT_SETUP". -/
inductive RevSetup
  | longSetup
  | shortSetup
deriving DecidableEq

/-- Entry directives: "ENTER_LONG" / "ENTER_SHORT". -/
inductive EntrySignal
  | enterLong
  | enterShort
deriving DecidableEq

/-- Profit-target outcomes of `check_profit_targets`:
"FIRST_TARGET" / "BREAKEVEN_STOP" / "SECOND_TARGET". -/
inductive TargetHit
  | firstTarget
  | breakevenStop
  | secondTarget
deriving DecidableEq

/-- Exit reasons (the reason strings passed to `exit_position` / `exit_all`). -/
inductive ExitReason
  | stopLoss
  | firstTarget
  | breakevenStop
  | secondTarget
  | profitTarget
  | forceClose
  | marketClosed
  | shutdown
deriving DecidableEq

/-! ## SPYREVStrategy (`spy_rev_strategy.py`) -/

/-- Constructor parameters of `SPYREVStrategy` that the trading logic reads.
Times are seconds since midnight (defaults: market 08:30:00–15:00:00,
monitor 08:25:00, no-new-trades 15:30:00, force-close 14:55:00). -/
structure RevConfig where
  contracts : ℕ
  underlying_move_target : ℚ
  itm_offset : ℚ
  market_open : ℕ
  market_close : ℕ
  monitor_start : ℕ
  no_new_trades_time : ℕ
  force_close_time : ℕ
  rsi_period : ℕ
  ema_period : ℕ
  rsi_oversold : ℚ
  rsi_overbought : ℚ

/-- The position dict built in `SPYREVStrategy.enter_position`.  `pid` stands
in for the option contract object as an identity (orders and quotes refer to
it); `entry_time` is omitted (never read). -/
structure RevPosition where
  pid : ℕ
  ptype : OptionSide
  entry_underlying_price : ℚ
  entry_option_price : ℚ
  entry_strike : ℚ
  stop_loss_price : ℚ
  contracts_remaining : ℕ
  half_sold : Bool
deriving DecidableEq

/-- One polling-cycle view of the world: `datetime.now`, the fetched
5-minute DataFrame (`none` = no data), and the IB market quotes
(`option_price pid` is the quote of position `pid`'s contract; for an entry
it is the quote of the freshly qualified contract that gets that pid). -/
structure RevEnv where
  now : ℕ
  df : Option (ℕ × (ℕ → Bar))
  underlying_price : ℚ
  option_price : ℕ → ℚ

/-- Mutable per-instance state of `SPYREVStrategy`. -/
structure RevState where
  positions : List RevPosition
  rsi_signal : Option RevSetup
  rsi_signal_price : Option ℚ
  monitoring_started : Bool
  next_pid : ℕ
deriving DecidableEq

/-- Orders sent to IB by the REV strategy.  `sell` records the quantity, the
reason passed to `exit_position`, and whether the call was a partial
(first-target) exit. -/
inductive RevEvent
  | buy (pid : ℕ) (qty : ℕ)
  | sell (pid : ℕ) (qty : ℕ) (reason : ExitReason) (half : Bool)
deriving DecidableEq

/-- `SPYREVStrategy.is_market_open`. -/
def revIsMarketOpen (cfg : RevConfig) (now : ℕ) : Bool :=
  decide (cfg.market_open ≤ now ∧ now ≤ cfg.market_close)

/-- `SPYREVStrategy.should_start_monitoring`. -/
def revShouldStartMonitoring (cfg : RevConfig) (now : ℕ) : Bool :=
  decide (cfg.monitor_start ≤ now)

/-- `SPYREVStrategy.can_open_new_trades`: strictly before the no-new-trades
time. -/
def revCanOpenNewTrades (cfg : RevConfig) (now : ℕ) : Bool :=
  decide (now < cfg.no_new_trades_time)

/-- `SPYREVStrategy.is_force_close_time`. -/
def revIsForceCloseTime (cfg : RevConfig) (now : ℕ) : Bool :=
  decide (cfg.force_close_time ≤ now)

/-- `SPYREVStrategy.check_rsi_signal`: RSI extreme on the last completed
candle `iloc[-2]`.  Returns the setup together with the close recorded into
`self.rsi_signal_price`.  NaN RSI (`none`) yields no signal. -/
def revCheckRsiSignal (cfg : RevConfig) (n : ℕ) (ts : ℕ → Bar) :
    Option (RevSetup × ℚ) :=
  if n < 2 then none
  else
    match rsiAt cfg.rsi_period (fun j => (ts j).close) (n - 2) with
    | none => none
    | some rsi =>
      if rsi < cfg.rsi_oversold then some (.longSetup, (ts (n - 2)).close)
      else if rsi > cfg.rsi_overbought then some (.shortSetup, (ts (n - 2)).close)
      else none

/-- `SPYREVStrategy.check_entry_conditions`: confirmation of an armed RSI
setup by the last completed candle's close against its 9 EMA.
(`pd.isna(ema_9)` is never true: `ewm` of the NaN-free close column is
total.) -/
def revCheckEntryConditions (cfg : RevConfig) (rsi_signal : Option RevSetup)
    (n : ℕ) (ts : ℕ → Bar) : Option EntrySignal :=
  if n < 2 ∨ rsi_signal = none then none
  else
    let close_price := (ts (n - 2)).close
    let ema_9 := ewmAt cfg.ema_period (fun j => (ts j).close) (n - 2)
    if rsi_signal = some .longSetup ∧ close_price > ema_9 then some .enterLong
    else if rsi_signal = some .shortSetup ∧ close_price < ema_9 then some .enterShort
    else none

/-- `SPYREVStrategy.has_position_type`. -/
def revHasPositionType (positions : List RevPosition) (t : OptionSide) : Bool :=
  positions.any (fun p => decide (p.ptype = t))

/-- `SPYREVStrategy.enter_position`: rejected (no order, state unchanged)
when a position of the same type is already open; otherwise a BUY order is
placed, the position dict is appended, and the RSI signal is cleared.
`strike = round(spot)`. -/
def revEnterPosition (cfg : RevConfig) (env : RevEnv) (s : RevState)
    (position_type : OptionSide) : RevState × List RevEvent :=
  if revHasPositionType s.positions position_type then (s, [])
  else
    let pid := s.next_pid
    let p : RevPosition :=
      { pid := pid
        ptype := position_type
        entry_underlying_price := env.underlying_price
        entry_option_price := env.option_price pid
        entry_strike := ((round env.underlying_price : ℤ) : ℚ)
        stop_loss_price := s.rsi_signal_price.getD 0
        contracts_remaining := cfg.contracts
        half_sold := false }
    ({ s with
        positions := s.positions ++ [p]
        rsi_signal := none
        rsi_signal_price := none
        next_pid := pid + 1 },
      [RevEvent.buy pid cfg.contracts])

/-- `SPYREVStrategy.check_stop_loss` against the last completed candle's
close. -/
def revCheckStopLoss (p : RevPosition) (lastClose : ℚ) : Bool :=
  match p.ptype with
  | .call => decide (lastClose < p.stop_loss_price)
  | .put => decide (lastClose > p.stop_loss_price)

/-- `SPYREVStrategy.check_profit_targets`, with the two live quotes as
arguments.  The three checks are evaluated in source order. -/
def revCheckProfitTargets (cfg : RevConfig) (underlying optPrice : ℚ)
    (p : RevPosition) : Option TargetHit :=
  if !p.half_sold &&
      (match p.ptype with
        | .call => decide (underlying ≥ p.entry_underlying_price + cfg.underlying_move_target)
        | .put => decide (underlying ≤ p.entry_underlying_price - cfg.underlying_move_target)) then
    some .firstTarget
  else if p.half_sold && decide (optPrice ≤ p.entry_option_price) then some .breakevenStop
  else if (match p.ptype with
        | .call => decide (underlying ≥ p.entry_strike + cfg.itm_offset)
        | .put => decide (underlying ≤ p.entry_strike - cfg.itm_offset)) then
    some .secondTarget
  else none

/-- `SPYREVStrategy.exit_position` (source keyword argument `partial` is
`sellHalf` here): on a partial exit of a not-yet-halved position, sell
`contracts // 2` and set `contracts_remaining = contracts - quantity`,
`half_sold = True`; otherwise sell the remaining contracts.  The position is
removed from the list (`none`) iff `not partial or contracts_remaining == 0`
evaluated after the update, exactly as in the source. -/
def revExitPosition (cfg : RevConfig) (p : RevPosition) (reason : ExitReason)
    (sellHalf : Bool) : Option RevPosition × List RevEvent :=
  if sellHalf && !p.half_sold then
    let quantity := cfg.contracts / 2
    let p' := { p with
                contracts_remaining := cfg.contracts - quantity
                half_sold := true }
    (if p'.contracts_remaining = 0 then none else some p',
      [RevEvent.sell p.pid quantity reason sellHalf])
  else
    (if sellHalf = false ∨ p.contracts_remaining = 0 then none else some p,
      [RevEvent.sell p.pid p.contracts_remaining reason sellHalf])

/-- The per-position body of the position-management loop in
`SPYREVStrategy.run` (stop loss first, `continue` after it fires, then the
profit-target dispatch). -/
def revManageOne (cfg : RevConfig) (lastClose underlying optPrice : ℚ)
    (p : RevPosition) : Option RevPosition × List RevEvent :=
  if revCheckStopLoss p lastClose then revExitPosition cfg p .stopLoss false
  else
    match revCheckProfitTargets cfg underlying optPrice p with
    | some .firstTarget => revExitPosition cfg p .firstTarget true
    | some .breakevenStop => revExitPosition cfg p .breakevenStop false
    | some .secondTarget => revExitPosition cfg p .secondTarget false
    | none => (some p, [])

/-- The whole `for position in self.positions[:]` management loop. -/
def revManagePositions (cfg : RevConfig) (lastClose underlying : ℚ)
    (optPrice : ℕ → ℚ) : List RevPosition → List RevPosition × List RevEvent
  | [] => ([], [])
  | p :: rest =>
    let r := revManageOne cfg lastClose underlying (optPrice p.pid) p
    let rr := revManagePositions cfg lastClose underlying optPrice rest
    (match r.1 with
      | some p' => p' :: rr.1
      | none => rr.1,
      r.2 ++ rr.2)

/-- `SPYREVStrategy.close_all_positions`: full `exit_position` on every open
position (each is removed, so the list empties). -/
def revCloseAllPositions (cfg : RevConfig) (reason : ExitReason)
    (positions : List RevPosition) : List RevEvent :=
  (positions.map (fun p => (revExitPosition cfg p reason false).2)).flatten

/-- One iteration of the `while True` loop of `SPYREVStrategy.run`:
market-hours branch (force exit + daily reset), force-close-time branch,
monitoring gate, data-sufficiency gate, RSI-signal detection, entry
confirmation, then position management. -/
def revCycle (cfg : RevConfig) (env : RevEnv) (s : RevState) :
    RevState × List RevEvent :=
  if !revIsMarketOpen cfg env.now then
    let evs := if s.positions.isEmpty then []
      else revCloseAllPositions cfg .marketClosed s.positions
    ({ s with
        positions := []
        rsi_signal := none
        rsi_signal_price := none
        monitoring_started := false }, evs)
  else
    let fc := revIsForceCloseTime cfg env.now && !s.positions.isEmpty
    let evs1 := if fc then revCloseAllPositions cfg .forceClose s.positions else []
    let s := if fc then { s with positions := [] } else s
    let s := if !s.monitoring_started && revShouldStartMonitoring cfg env.now then
        { s with monitoring_started := true }
      else s
    if !s.monitoring_started then (s, evs1)
    else
      match env.df with
      | none => (s, evs1)
      | some (n, ts) =>
        if n < cfg.rsi_period + 5 then (s, evs1)
        else
          let lastClose := (ts (n - 2)).close
          let s :=
            if revCanOpenNewTrades cfg env.now && s.rsi_signal.isNone then
              match revCheckRsiSignal cfg n ts with
              | some sp => { s with
                  rsi_signal := some sp.1
                  rsi_signal_price := some sp.2 }
              | none => s
            else s
          let se :=
            if s.rsi_signal.isSome && revCanOpenNewTrades cfg env.now then
              match revCheckEntryConditions cfg s.rsi_signal n ts with
              | some .enterLong => revEnterPosition cfg env s .call
              | some .enterShort => revEnterPosition cfg env s .put
              | none => (s, [])
            else (s, [])
          let pm := revManagePositions cfg lastClose env.underlying_price
            env.option_price se.1.positions
          ({ se.1 with positions := pm.1 }, evs1 ++ se.2 ++ pm.2)

/-! ## SPYORBStrategy (`spy_orb_strategy.py`) -/

/-- Constructor parameters of `SPYORBStrategy` read by the trading logic. -/
structure OrbConfig where
  contracts : ℕ
  underlying_move_target : ℚ
  itm_offset : ℚ
  market_open : ℕ
  market_close : ℕ
  force_close_time : ℕ

/-- Mutable state of `SPYORBStrategy`; `daily_trade_done` is the local
variable of `run` that lives across loop iterations.  The entry-stat fields
are `None` before the first entry and after every `exit_all`. -/
structure OrbState where
  opening_range_high : Option ℚ
  opening_range_low : Option ℚ
  opening_range_set : Bool
  position : Option OptionSide
  entry_underlying_price : Option ℚ
  entry_option_price : Option ℚ
  entry_strike : Option ℚ
  half_position_closed : Bool
  daily_trade_done : Bool
deriving DecidableEq

/-- Per-cycle environment for the ORB loop: wall-clock time of day, today's
calendar day, the fetched DataFrame, and the two live quotes. -/
structure OrbEnv where
  now : ℕ
  today : ℤ
  df : Option (ℕ × (ℕ → Bar))
  underlying_price : ℚ
  option_price : ℚ

/-- Orders sent to IB by the ORB strategy: the BUY of `enter_position`, the
raw half-size SELL at the first profit target, and the SELL of `exit_all`
with its reason. -/
inductive OrbEvent
  | buy (qty : ℕ)
  | sellHalf (qty : ℕ)
  | exitAll (qty : ℕ) (reason : ExitReason)
deriving DecidableEq

/-- `SPYORBStrategy.is_market_open`. -/
def orbIsMarketOpen (cfg : OrbConfig) (now : ℕ) : Bool :=
  decide (cfg.market_open ≤ now ∧ now ≤ cfg.market_close)

/-- `SPYORBStrategy.is_force_close_time`. -/
def orbIsForceCloseTime (cfg : OrbConfig) (now : ℕ) : Bool :=
  decide (cfg.force_close_time ≤ now)

/-- `SPYORBStrategy.calculate_opening_range`: restrict the DataFrame to
today's rows, then to those dated strictly before market open + 15 minutes;
with fewer than 3 such candles nothing happens, otherwise the range is the
max high / min low of those candles and `opening_range_set` becomes true. -/
def orbCalculateOpeningRange (cfg : OrbConfig) (today : ℤ) (n : ℕ)
    (ts : ℕ → Bar) (s : OrbState) : OrbState :=
  let todayRows := (List.range n).filter (fun j => decide ((ts j).day = today))
  if todayRows.isEmpty then s
  else
    let openingRows := todayRows.filter
      (fun j => decide ((ts j).tsec < cfg.market_open + 15 * 60))
    if openingRows.length < 3 then s
    else
      { s with
          opening_range_high := (openingRows.map (fun j => (ts j).high)).max?
          opening_range_low := (openingRows.map (fun j => (ts j).low)).min?
          opening_range_set := true }

/-- `SPYORBStrategy.enter_position`: BUY `contracts` of the ATM 0-DTE
option, record entry stats (`strike = round(spot)`). -/
def orbEnterPosition (cfg : OrbConfig) (env : OrbEnv) (s : OrbState)
    (position_type : OptionSide) : OrbState × List OrbEvent :=
  ({ s with
      position := some position_type
      entry_underlying_price := some env.underlying_price
      entry_option_price := some env.option_price
      entry_strike := some ((round env.underlying_price : ℤ) : ℚ) },
    [OrbEvent.buy cfg.contracts])

/-- `SPYORBStrategy.exit_all`: no-op with no position; otherwise a SELL of
`contracts // 2` if the half was already sold, else of `contracts`, and all
position state is reset.  (The `option_contract is None` guard coincides
with `position is None` in every reachable state.) -/
def orbExitAll (cfg : OrbConfig) (s : OrbState) (reason : ExitReason) :
    OrbState × List OrbEvent :=
  if s.position.isNone then (s, [])
  else
    let remaining := if s.half_position_closed then cfg.contracts / 2 else cfg.contracts
    ({ s with
        position := none
        entry_underlying_price := none
        entry_option_price := none
        entry_strike := none
        half_position_closed := false },
      [OrbEvent.exitAll remaining reason])

/-- The breakout entry check of `SPYORBStrategy.run` (last completed bar's
close against the stored opening range).  Only evaluated with the range
set, so the stored `Option` values are present (`getD` defaults are dead). -/
def orbEntrySignal (s : OrbState) (n : ℕ) (ts : ℕ → Bar) : Option OptionSide :=
  let lastClosedClose := (ts (n - 2)).close
  if lastClosedClose > s.opening_range_high.getD 0 then some .call
  else if lastClosedClose < s.opening_range_low.getD 0 then some .put
  else none

/-- The open-position management block of `SPYORBStrategy.run`: range-based
initial stop loss (with `continue`), first profit target (raw half SELL, no
`continue`), breakeven stop on the remaining half, second profit target. -/
def orbManage (cfg : OrbConfig) (env : OrbEnv) (n : ℕ) (ts : ℕ → Bar)
    (s : OrbState) : OrbState × List OrbEvent :=
  if s.position.isNone then (s, [])
  else
    let underlying_price := env.underlying_price
    let option_price := env.option_price
    let lastClosedClose := (ts (n - 2)).close
    if s.position = some .call ∧ lastClosedClose < s.opening_range_low.getD 0 then
      orbExitAll cfg s .stopLoss
    else if s.position = some .put ∧ lastClosedClose > s.opening_range_high.getD 0 then
      orbExitAll cfg s .stopLoss
    else
      let ft : Bool := !s.half_position_closed &&
        (match s.position with
          | some .call =>
            decide (underlying_price ≥ s.entry_underlying_price.getD 0 + cfg.underlying_move_target)
          | some .put =>
            decide (underlying_price ≤ s.entry_underlying_price.getD 0 - cfg.underlying_move_target)
          | none => false)
      let s1 := if ft then { s with half_position_closed := true } else s
      let evs1 : List OrbEvent := if ft then [OrbEvent.sellHalf (cfg.contracts / 2)] else []
      if s1.half_position_closed ∧ option_price ≤ s1.entry_option_price.getD 0 then
        let r := orbExitAll cfg s1 .breakevenStop
        (r.1, evs1 ++ r.2)
      else if s1.position = some .call ∧ underlying_price ≥ s1.entry_strike.getD 0 + cfg.itm_offset then
        let r := orbExitAll cfg s1 .secondTarget
        (r.1, evs1 ++ r.2)
      else if s1.position = some .put ∧ underlying_price ≤ s1.entry_strike.getD 0 - cfg.itm_offset then
        let r := orbExitAll cfg s1 .secondTarget
        (r.1, evs1 ++ r.2)
      else (s1, evs1)

/-- One iteration of the `while True` loop of `SPYORBStrategy.run`.  Note
that the market-closed branch resets only `daily_trade_done`; nothing ever
resets `opening_range_set`. -/
def orbCycle (cfg : OrbConfig) (env : OrbEnv) (s : OrbState) :
    OrbState × List OrbEvent :=
  if !orbIsMarketOpen cfg env.now then
    let r := if s.position.isSome then orbExitAll cfg s .marketClosed else (s, [])
    ({ r.1 with daily_trade_done := false }, r.2)
  else
    let fc := orbIsForceCloseTime cfg env.now && s.position.isSome
    let r0 := if fc then orbExitAll cfg s .forceClose else (s, [])
    let s := r0.1
    let evs1 := r0.2
    match env.df with
    | none => (s, evs1)
    | some (n, ts) =>
      if n = 0 then (s, evs1)
      else if !s.opening_range_set then
        (orbCalculateOpeningRange cfg env.today n ts s, evs1)
      else
        let re :=
          if !s.daily_trade_done && s.position.isNone then
            match orbEntrySignal s n ts with
            | some side =>
              let r := orbEnterPosition cfg env s side
              ({ r.1 with daily_trade_done := true }, r.2)
            | none => (s, [])
          else (s, [])
        let rm := orbManage cfg env n ts re.1
        (rm.1, evs1 ++ re.2 ++ rm.2)

/-! ## SPYBOSKStrategy (`spy_bosk_strategy.py`) -/

/-- Constructor parameters of `SPYBOSKStrategy` read by the trading logic
(defaults: monitor 08:30:00, no-new-trades 14:00:00, force-close 14:55:00,
EMA 9/20, ATR 20, Keltner multiplier 1.5). -/
structure BoskConfig where
  contracts : ℕ
  underlying_move_target : ℚ
  itm_offset : ℚ
  market_open : ℕ
  market_close : ℕ
  monitor_start : ℕ
  no_new_trades_time : ℕ
  force_close_time : ℕ
  ema9_period : ℕ
  ema20_period : ℕ
  atr_period : ℕ
  kc_mult : ℚ

/-- The position dict built in `SPYBOSKStrategy.enter_position` (no stop
reference price field; `entry_time` omitted, never read). -/
structure BoskPosition where
  pid : ℕ
  ptype : OptionSide
  entry_underlying_price : ℚ
  entry_option_price : ℚ
  entry_strike : ℚ
  contracts_remaining : ℕ
  half_sold : Bool
deriving DecidableEq

/-- Mutable state of `SPYBOSKStrategy`; `monitoring_started` is the local
variable of `run` (never reset by `reset_daily_state`). -/
structure BoskState where
  positions : List BoskPosition
  wait_for_ema20_cross : Bool
  last_profit_side : Option Direction
  monitoring_started : Bool
  next_pid : ℕ
deriving DecidableEq

/-- Per-cycle environment for the BOSK loop. -/
structure BoskEnv where
  now : ℕ
  df : Option (ℕ × (ℕ → Bar))
  underlying_price : ℚ
  option_price : ℕ → ℚ

/-- Orders sent to IB by the BOSK strategy. -/
inductive BoskEvent
  | buy (pid : ℕ) (qty : ℕ)
  | sell (pid : ℕ) (qty : ℕ) (reason : ExitReason) (half : Bool)
deriving DecidableEq

/-- `SPYBOSKStrategy.is_market_open`. -/
def boskIsMarketOpen (cfg : BoskConfig) (now : ℕ) : Bool :=
  decide (cfg.market_open ≤ now ∧ now ≤ cfg.market_close)

/-- `SPYBOSKStrategy.should_start_monitoring`. -/
def boskShouldStartMonitoring (cfg : BoskConfig) (now : ℕ) : Bool :=
  decide (cfg.monitor_start ≤ now)

/-- `SPYBOSKStrategy.can_open_new_trades`: false at/after the no-new-trades
time, false while the EMA-20 re-entry guard is armed, true otherwise. -/
def boskCanOpenNewTrades (cfg : BoskConfig) (now : ℕ) (wait_for_ema20_cross : Bool) :
    Bool :=
  if cfg.no_new_trades_time ≤ now then false
  else if wait_for_ema20_cross then false
  else true

/-- `SPYBOSKStrategy.is_force_close_time`. -/
def boskIsForceCloseTime (cfg : BoskConfig) (now : ℕ) : Bool :=
  decide (cfg.force_close_time ≤ now)

/-- The `kc_upper` column: `ema20 + kc_mult * atr`. -/
def kcUpperAt (cfg : BoskConfig) (ts : ℕ → Bar) (i : ℕ) : ℚ :=
  ewmAt cfg.ema20_period (fun j => (ts j).close) i + cfg.kc_mult * atrAt cfg.atr_period ts i

/-- The `kc_lower` column: `ema20 - kc_mult * atr`. -/
def kcLowerAt (cfg : BoskConfig) (ts : ℕ → Bar) (i : ℕ) : ℚ :=
  ewmAt cfg.ema20_period (fun j => (ts j).close) i - cfg.kc_mult * atrAt cfg.atr_period ts i

/-- `SPYBOSKStrategy._break_of_structure`: the candle at `last_idx` closes
above the max high (below the min low) of the preceding three candles. -/
def boskBreakOfStructure (ts : ℕ → Bar) (last_idx : ℕ) : Option Direction :=
  if last_idx < 3 then none
  else
    let prev_high := max ((ts (last_idx - 3)).high)
      (max ((ts (last_idx - 2)).high) ((ts (last_idx - 1)).high))
    let prev_low := min ((ts (last_idx - 3)).low)
      (min ((ts (last_idx - 2)).low) ((ts (last_idx - 1)).low))
    let close := (ts last_idx).close
    if close > prev_high then some .long
    else if close < prev_low then some .short
    else none

/-- `SPYBOSKStrategy.check_entry_signal`: break of structure on the last
completed candle (`iloc[-2]`) together with a Keltner-band cross on the same
candle. -/
def boskCheckEntrySignal (cfg : BoskConfig) (n : ℕ) (ts : ℕ → Bar) :
    Option EntrySignal :=
  if n < 4 then none
  else
    let idx := n - 2
    let kc_lower := kcLowerAt cfg ts idx
    let kc_upper := kcUpperAt cfg ts idx
    let candle_open := (ts idx).open_
    let candle_close := (ts idx).close
    match boskBreakOfStructure ts idx with
    | some .long =>
      if candle_open < kc_lower ∧ candle_close > kc_lower then some .enterLong else none
    | some .short =>
      if candle_open > kc_upper ∧ candle_close < kc_upper then some .enterShort else none
    | none => none

/-- `SPYBOSKStrategy.enter_position`: BUY unconditionally and append the new
position dict — there is no check for an existing position of the same
type. -/
def boskEnterPosition (cfg : BoskConfig) (env : BoskEnv) (s : BoskState)
    (position_type : OptionSide) : BoskState × List BoskEvent :=
  let pid := s.next_pid
  let p : BoskPosition :=
    { pid := pid
      ptype := position_type
      entry_underlying_price := env.underlying_price
      entry_option_price := env.option_price pid
      entry_strike := ((round env.underlying_price : ℤ) : ℚ)
      contracts_remaining := cfg.contracts
      half_sold := false }
  ({ s with positions := s.positions ++ [p], next_pid := pid + 1 },
    [BoskEvent.buy pid cfg.contracts])

/-- `SPYBOSKStrategy.check_stop_loss` against the last completed candle
(close vs its 9 EMA; the `isnan` guard is dead since `ewm` of the close
column is total). -/
def boskCheckStopLoss (p : BoskPosition) (lastClose ema9 : ℚ) : Bool :=
  match p.ptype with
  | .call => decide (lastClose < ema9)
  | .put => decide (lastClose > ema9)

/-- `SPYBOSKStrategy.check_profit_targets`, with the two live quotes as
arguments. -/
def boskCheckProfitTargets (cfg : BoskConfig) (underlying optPrice : ℚ)
    (p : BoskPosition) : Option TargetHit :=
  if !p.half_sold &&
      (match p.ptype with
        | .call => decide (underlying ≥ p.entry_underlying_price + cfg.underlying_move_target)
        | .put => decide (underlying ≤ p.entry_underlying_price - cfg.underlying_move_target)) then
    some .firstTarget
  else if p.half_sold && decide (optPrice ≤ p.entry_option_price) then some .breakevenStop
  else if (match p.ptype with
        | .call => decide (underlying ≥ p.entry_strike + cfg.itm_offset)
        | .put => decide (underlying ≤ p.entry_strike - cfg.itm_offset)) then
    some .secondTarget
  else none

/-- `SPYBOSKStrategy.exit_position` (source keyword argument `partial` is
`sellHalf`): a partial exit decrements `contracts_remaining` by
`contracts // 2`; otherwise the remaining contracts are sold.  On removal
(`not partial or contracts_remaining == 0`) the re-entry guard is updated:
`wait_for_ema20_cross = pnl > 0` and `last_profit_side` is the closed
side, where `pnl = (option_price - entry_option_price) * 100`.  The third
component is that guard update (`none` when the position is kept). -/
def boskExitPosition (cfg : BoskConfig) (optPrice : ℚ) (p : BoskPosition)
    (reason : ExitReason) (sellHalf : Bool) :
    Option BoskPosition × List BoskEvent × Option (Bool × Direction) :=
  let pnl := (optPrice - p.entry_option_price) * 100
  let upd : Option (Bool × Direction) :=
    some (decide (pnl > 0), if p.ptype = .call then .long else .short)
  if sellHalf && !p.half_sold then
    let qty := cfg.contracts / 2
    let p' := { p with
                contracts_remaining := p.contracts_remaining - qty
                half_sold := true }
    if p'.contracts_remaining = 0 then (none, [BoskEvent.sell p.pid qty reason sellHalf], upd)
    else (some p', [BoskEvent.sell p.pid qty reason sellHalf], none)
  else
    let qty := p.contracts_remaining
    if sellHalf = false ∨ p.contracts_remaining = 0 then
      (none, [BoskEvent.sell p.pid qty reason sellHalf], upd)
    else (some p, [BoskEvent.sell p.pid qty reason sellHalf], none)

/-- The per-position body of the position-management loop in
`SPYBOSKStrategy.run` (stop loss first with `continue`, then the
profit-target dispatch). -/
def boskManageOne (cfg : BoskConfig) (lastClose ema9 underlying optPrice : ℚ)
    (p : BoskPosition) : Option BoskPosition × List BoskEvent × Option (Bool × Direction) :=
  if boskCheckStopLoss p lastClose ema9 then boskExitPosition cfg optPrice p .stopLoss false
  else
    match boskCheckProfitTargets cfg underlying optPrice p with
    | some .firstTarget => boskExitPosition cfg optPrice p .firstTarget true
    | some .breakevenStop => boskExitPosition cfg optPrice p .breakevenStop false
    | some .secondTarget => boskExitPosition cfg optPrice p .secondTarget false
    | none => (some p, [], none)

/-- The whole `for pos in self.positions[:]` management loop; guard updates
are collected in processing order. -/
def boskManagePositions (cfg : BoskConfig) (lastClose ema9 underlying : ℚ)
    (optPrice : ℕ → ℚ) :
    List BoskPosition → List BoskPosition × List BoskEvent × List (Bool × Direction)
  | [] => ([], [], [])
  | p :: rest =>
    let r := boskManageOne cfg lastClose ema9 underlying (optPrice p.pid) p
    let rr := boskManagePositions cfg lastClose ema9 underlying optPrice rest
    (match r.1 with
      | some p' => p' :: rr.1
      | none => rr.1,
      r.2.1 ++ rr.2.1,
      (match r.2.2 with
        | some u => [u]
        | none => []) ++ rr.2.2)

/-- Apply a sequence of re-entry-guard updates (last write wins, as the
sequential Python assignments do). -/
def boskApplyGuardUpdates (s : BoskState) (upds : List (Bool × Direction)) : BoskState :=
  upds.foldl
    (fun s u => { s with wait_for_ema20_cross := u.1, last_profit_side := some u.2 }) s

/-- `SPYBOSKStrategy.close_all_positions`: full `exit_position` for every
open position (all removed; each updates the guard in turn). -/
def boskCloseAllPositions (cfg : BoskConfig) (optPrice : ℕ → ℚ) (reason : ExitReason)
    (positions : List BoskPosition) : List BoskEvent × List (Bool × Direction) :=
  ((positions.map (fun p => (boskExitPosition cfg (optPrice p.pid) p reason false).2.1)).flatten,
    (positions.map (fun p =>
      match (boskExitPosition cfg (optPrice p.pid) p reason false).2.2 with
      | some u => [u]
      | none => [])).flatten)

/-- `SPYBOSKStrategy._check_ema20_cross_reset`: with the guard armed, clear
it when the last completed candle's close has crossed the 20 EMA against
the side of the last profitable trade. -/
def boskCheckEma20CrossReset (s : BoskState) (lastClose ema20 : ℚ) : BoskState :=
  if !s.wait_for_ema20_cross then s
  else if s.last_profit_side = some .long ∧ lastClose < ema20 then
    { s with wait_for_ema20_cross := false }
  else if s.last_profit_side = some .short ∧ lastClose > ema20 then
    { s with wait_for_ema20_cross := false }
  else s

/-- One iteration of the `while True` loop of `SPYBOSKStrategy.run`. -/
def boskCycle (cfg : BoskConfig) (env : BoskEnv) (s : BoskState) :
    BoskState × List BoskEvent :=
  if !boskIsMarketOpen cfg env.now then
    let r := if !s.positions.isEmpty then
        boskCloseAllPositions cfg env.option_price .marketClosed s.positions
      else ([], [])
    let s := boskApplyGuardUpdates { s with positions := [] } r.2
    ({ s with positions := [], wait_for_ema20_cross := false, last_profit_side := none },
      r.1)
  else
    let fc := boskIsForceCloseTime cfg env.now && !s.positions.isEmpty
    let r0 := if fc then boskCloseAllPositions cfg env.option_price .forceClose s.positions
      else ([], [])
    let s := if fc then boskApplyGuardUpdates { s with positions := [] } r0.2 else s
    let evs1 := r0.1
    let s := if !s.monitoring_started && boskShouldStartMonitoring cfg env.now then
        { s with monitoring_started := true }
      else s
    if !s.monitoring_started then (s, evs1)
    else
      match env.df with
      | none => (s, evs1)
      | some (n, ts) =>
        if n < cfg.ema20_period + 5 then (s, evs1)
        else
          let lastClose := (ts (n - 2)).close
          let ema9 := ewmAt cfg.ema9_period (fun j => (ts j).close) (n - 2)
          let ema20 := ewmAt cfg.ema20_period (fun j => (ts j).close) (n - 2)
          let s := boskCheckEma20CrossReset s lastClose ema20
          let se :=
            if boskCanOpenNewTrades cfg env.now s.wait_for_ema20_cross then
              match boskCheckEntrySignal cfg n ts with
              | some .enterLong => boskEnterPosition cfg env s .call
              | some .enterShort => boskEnterPosition cfg env s .put
              | none => (s, [])
            else (s, [])
          let pm := boskManagePositions cfg lastClose ema9 env.underlying_price
            env.option_price se.1.positions
          (boskApplyGuardUpdates { se.1 with positions := pm.1 } pm.2.2,
            evs1 ++ se.2 ++ pm.2.1)

/-! ## SPYEMAChad (`spy_ema_chad.py`) -/

/-- Constructor parameters of `SPYEMAChad` read by the trading logic
(defaults: threshold 0.0003, EMA 9/20, profit target 1.0). -/
structure EmaConfig where
  profit_target : ℚ
  market_open : ℕ
  market_close : ℕ
  signal_time : ℕ
  force_close_time : ℕ
  ema_short : ℕ
  ema_long : ℕ
  threshold : ℚ
  trading_time : ℕ

/-- The initial-condition classification: "ABOVE" / "BELOW". -/
inductive EmaCond
  | above
  | below
deriving DecidableEq

/-- Mutable state of `SPYEMAChad` (the `stop_loss` and `option` attributes
carry no logic and are omitted). -/
structure EmaState where
  position : Option Direction
  entry_price : ℚ
  today_trade_taken : Bool
  waiting_for_entry : Bool
  initial_condition : Option EmaCond
deriving DecidableEq

/-- `SPYEMAChad.check_initial_condition` at the signal time: the live price
against `ema_short`, `ema_long` and `vwap` of the LAST row (`iloc[-1]`,
the in-progress bar).  `None` = price between the indicators. -/
def emaCheckInitialCondition (cfg : EmaConfig) (price : ℚ) (n : ℕ) (ts : ℕ → Bar) :
    Option EmaCond :=
  let ema_short := ewmAt cfg.ema_short (fun j => (ts j).close) (n - 1)
  let ema_long := ewmAt cfg.ema_long (fun j => (ts j).close) (n - 1)
  let vwap := vwapAt ts (n - 1)
  if price > ema_short ∧ price > ema_long ∧ price > vwap then some .above
  else if price < ema_short ∧ price < ema_long ∧ price < vwap then some .below
  else none

/-- `SPYEMAChad.check_for_entry`: while waiting for entry, the live price
touches the short EMA within `threshold × price`. -/
def emaCheckForEntry (cfg : EmaConfig) (s : EmaState)
    (current_price ema_short_price : ℚ) : Bool :=
  if !s.waiting_for_entry then false
  else
    let touch_threshold := current_price * cfg.threshold
    if s.initial_condition = some .above ∧ |current_price - ema_short_price| < touch_threshold then
      true
    else if s.initial_condition = some .below ∧ |current_price - ema_short_price| < touch_threshold then
      true
    else false

/-- The entry block of `SPYEMAChad.run` (the `if self.waiting_for_entry:`
block): the short-EMA value handed to `check_for_entry` is read from
`df.iloc[-1]`, the last (in-progress) row.  Returns the direction entered,
if any. -/
def emaEntryDecision (cfg : EmaConfig) (s : EmaState) (n : ℕ) (ts : ℕ → Bar)
    (current_price : ℚ) : Option Direction :=
  if s.waiting_for_entry then
    let ema_short_price := ewmAt cfg.ema_short (fun j => (ts j).close) (n - 1)
    if emaCheckForEntry cfg s current_price ema_short_price then
      some (if s.initial_condition = some .above then .long else .short)
    else none
  else none

/-- `SPYEMAChad.check_profit_target` with the live quote as argument. -/
def emaCheckProfitTarget (cfg : EmaConfig) (s : EmaState) (current_price : ℚ) :
    Bool :=
  match s.position with
  | none => false
  | some .long => decide (current_price - s.entry_price ≥ cfg.profit_target)
  | some .short => decide (s.entry_price - current_price ≥ cfg.profit_target)

/-- `SPYEMAChad.check_stop_loss`: the live price against `ema_short`,
`ema_long` and `vwap` of the last COMPLETED candle (`iloc[-2]`). -/
def emaCheckStopLoss (cfg : EmaConfig) (s : EmaState) (cp : ℚ) (n : ℕ)
    (ts : ℕ → Bar) : Bool :=
  match s.position with
  | none => false
  | some dir =>
    let ema_short := ewmAt cfg.ema_short (fun j => (ts j).close) (n - 2)
    let ema_long := ewmAt cfg.ema_long (fun j => (ts j).close) (n - 2)
    let vwap := vwapAt ts (n - 2)
    match dir with
    | .long => decide (cp < ema_short ∧ cp < ema_long ∧ cp < vwap)
    | .short => decide (cp > ema_short ∧ cp > ema_long ∧ cp > vwap)

/-- The exit block of `SPYEMAChad.run` (the `if self.position is not None:`
block): the PROFIT TARGET is checked first and `continue`s when it fires;
the stop loss is only checked afterwards.  Returns the exit reason fired,
if any. -/
def emaExitStep (cfg : EmaConfig) (s : EmaState) (current_price : ℚ) (n : ℕ)
    (ts : ℕ → Bar) : EmaState × Option ExitReason :=
  if s.position.isSome then
    if emaCheckProfitTarget cfg s current_price then
      ({ s with position := none, entry_price := 0 }, some .profitTarget)
    else if emaCheckStopLoss cfg s current_price n ts then
      ({ s with position := none, entry_price := 0 }, some .stopLoss)
    else (s, none)
  else (s, none)

/-! ## Single-position lifecycle (REV)

The only mutations a REV position dict ever undergoes are `exit_position`
calls: from the management loop of `run` (via the stop-loss / profit-target
dispatch) or full exits from `close_all_positions` (market close, force
close, shutdown).  A lifecycle is a fold of those per-cycle inputs over one
position. -/

/-- The data one cycle presents to a single open REV position: either a
close-all full exit hits it (`forced`), or the management loop evaluates it
against the last completed close and the two live quotes. -/
structure RevLifeInput where
  forced : Bool
  lastClose : ℚ
  underlying : ℚ
  optPrice : ℚ

/-- What one cycle does to a single open REV position. -/
def revLifeStep (cfg : RevConfig) (inp : RevLifeInput) (p : RevPosition) :
    Option RevPosition × List RevEvent :=
  if inp.forced then revExitPosition cfg p .forceClose false
  else revManageOne cfg inp.lastClose inp.underlying inp.optPrice p

/-- Quantity sold by a list of events. -/
def soldQty (evs : List RevEvent) : ℕ :=
  (evs.map (fun e => match e with
    | .sell _ q _ _ => q
    | .buy _ _ => 0)).sum

/-- Run a position through a sequence of lifecycle inputs, returning the
surviving position (if any) and the total quantity sold. -/
def revLifeRun (cfg : RevConfig) : List RevLifeInput → Option RevPosition → Option RevPosition × ℕ
  | [], st => (st, 0)
  | inp :: rest, st =>
    match st with
    | none => (none, 0)
    | some p =>
      let r := revLifeStep cfg inp p
      let rr := revLifeRun cfg rest r.1
      (rr.1, soldQty r.2 + rr.2)

/-! ## Default configurations (constructor / argparse defaults) -/

/-- `SPYREVStrategy()` defaults: 2 contracts, $1 move target, $1.05 ITM
offset, market 08:30–15:00, monitor 08:25, no-new-trades 15:30, force-close
14:55, RSI 14, EMA 9, bands 30/70. -/
def revDefaultConfig : RevConfig :=
  { contracts := 2, underlying_move_target := 1, itm_offset := 21/20
    market_open := 30600, market_close := 54000, monitor_start := 30300
    no_new_trades_time := 55800, force_close_time := 53700
    rsi_period := 14, ema_period := 9, rsi_oversold := 30, rsi_overbought := 70 }

/-- `SPYORBStrategy()` defaults. -/
def orbDefaultConfig : OrbConfig :=
  { contracts := 2, underlying_move_target := 1, itm_offset := 21/20
    market_open := 30600, market_close := 54000, force_close_time := 53700 }

/-- `SPYBOSKStrategy()` defaults (monitor 08:30, no-new-trades 14:00). -/
def boskDefaultConfig : BoskConfig :=
  { contracts := 2, underlying_move_target := 1, itm_offset := 21/20
    market_open := 30600, market_close := 54000, monitor_start := 30600
    no_new_trades_time := 50400, force_close_time := 53700
    ema9_period := 9, ema20_period := 20, atr_period := 20, kc_mult := 3/2 }

/-- `SPYEMAChad()` defaults (signal time 09:00, threshold 0.0003). -/
def emaDefaultConfig : EmaConfig :=
  { profit_target := 1, market_open := 30600, market_close := 54000
    signal_time := 32400, force_close_time := 53700
    ema_short := 9, ema_long := 20, threshold := 3/10000, trading_time := 5 }

/-! ## Concrete scenario data used by the checks below -/

/-- A flat bar of day 0: open = high = low = close = `q`, volume 1. -/
def barQ (q : ℚ) : Bar :=
  { day := 0, tsec := 0, open_ := q, high := q, low := q, close := q, volume := 1 }

/-- EMA-CHAD state holding a LONG entered at 100 (both exit conditions can
then be made true at once by a quote of 101.5 against flat-200 bars). -/
def emaBothState : EmaState :=
  { position := some .long, entry_price := 100, today_trade_taken := true
    waiting_for_entry := false, initial_condition := none }

/-- Flat 200 series: all indicator values equal 200. -/
def tsFlat200 : ℕ → Bar := fun _ => barQ 200

/-- Flat 100 series. -/
def tsFlat100 : ℕ → Bar := fun _ => barQ 100

/-- A 200-bar stamped with a different time of day than `barQ 200`
(distinguishes series that agree except in the forming bar). -/
def bar200T : Bar :=
  { day := 0, tsec := 300, open_ := 200, high := 200, low := 200, close := 200, volume := 1 }

/-- Two-bar series A for the EMA-CHAD forming-bar test: closes 100, 100. -/
def tsC2A : ℕ → Bar := fun _ => barQ 100

/-- Two-bar series B: same first bar, forming bar closes 200. -/
def tsC2B : ℕ → Bar := fun i => if i = 0 then barQ 100 else bar200T

/-- Three-bar series A (first two bars shared with `tsC2W'`). -/
def tsC2W : ℕ → Bar := fun i => if i ≤ 1 then barQ 100 else barQ 200

/-- Three-bar series B, differing from `tsC2W` only at index 2. -/
def tsC2W' : ℕ → Bar := fun i => if i ≤ 1 then barQ 100 else bar200T

/-- EMA-CHAD state waiting for entry after an ABOVE classification. -/
def emaWaitState : EmaState :=
  { position := none, entry_price := 0, today_trade_taken := false
    waiting_for_entry := true, initial_condition := some .above }

/-- BOSK configuration with periods shrunk (EMA 1/3, ATR 20) so that an
8-bar series suffices (`len(df) ≥ ema20_period + 5`). -/
def boskCexCfg : BoskConfig :=
  { boskDefaultConfig with ema9_period := 1, ema20_period := 3 }

/-- The breakout candle: open 95, high/close 103, low 95. -/
def boskBar6 : Bar :=
  { day := 0, tsec := 0, open_ := 95, high := 103, low := 95, close := 103, volume := 1 }

/-- Eight-bar BOSK series: flat 100 for rows 0–5, breakout candle after. -/
def tsBosk : ℕ → Bar := fun i => if i ≤ 5 then barQ 100 else boskBar6

/-- BOSK environment: 11:06:40, the 8-bar series, spot 100, option quote 2. -/
def boskCexEnv : BoskEnv :=
  { now := 40000, df := some (8, tsBosk), underlying_price := 100
    option_price := fun _ => 2 }

/-- Fresh BOSK state with monitoring already started. -/
def boskCexState : BoskState :=
  { positions := [], wait_for_ema20_cross := false, last_profit_side := none
    monitoring_started := true, next_pid := 0 }

/-- A freshly entered 2-contract CALL (entry 400, stop reference 398). -/
def pC4 : RevPosition :=
  { pid := 0, ptype := .call, entry_underlying_price := 400, entry_option_price := 2
    entry_strike := 400, stop_loss_price := 398, contracts_remaining := 2, half_sold := false }

/-- The same position after the first-target partial exit: 1 contract left,
half sold. -/
def pC4half : RevPosition :=
  { pid := 0, ptype := .call, entry_underlying_price := 400, entry_option_price := 2
    entry_strike := 400, stop_loss_price := 398, contracts_remaining := 1, half_sold := true }

/-- A forced (close-all) lifecycle input. -/
def inpForce : RevLifeInput :=
  { forced := true, lastClose := 0, underlying := 0, optPrice := 0 }

/-- ORB configuration with an odd contract count (3). -/
def orbCfgC5 : OrbConfig := { orbDefaultConfig with contracts := 3 }

/-- ORB state: open CALL (entry 400 / option 2 / strike 400), range
[398, 402], half not yet sold. -/
def orbStateC5 : OrbState :=
  { opening_range_high := some 402, opening_range_low := some 398, opening_range_set := true
    position := some .call, entry_underlying_price := some 400
    entry_option_price := some 2, entry_strike := some 400
    half_position_closed := false, daily_trade_done := true }

/-- Flat 400.5 series (no range stop triggers). -/
def tsOrb : ℕ → Bar := fun _ => barQ (801/2)

/-- ORB cycle data: spot 401 (first target hit), option quote 3. -/
def orbEnvA : OrbEnv :=
  { now := 40000, today := 0, df := some (6, tsOrb), underlying_price := 401, option_price := 3 }

/-- ORB cycle data: spot 401.10 (second target hit). -/
def orbEnvB : OrbEnv :=
  { now := 40100, today := 0, df := some (6, tsOrb), underlying_price := 4011/10, option_price := 3 }

/-- REV twin of the odd-contract scenario: 3 contracts. -/
def revCfgC5 : RevConfig := { revDefaultConfig with contracts := 3 }

/-- A freshly entered 3-contract CALL. -/
def pC5 : RevPosition :=
  { pid := 0, ptype := .call, entry_underlying_price := 400, entry_option_price := 2
    entry_strike := 400, stop_loss_price := 398, contracts_remaining := 3, half_sold := false }

/-- Lifecycle input hitting the first profit target (spot 401). -/
def inpC5A : RevLifeInput :=
  { forced := false, lastClose := 801/2, underlying := 401, optPrice := 3 }

/-- Lifecycle input hitting the second profit target (spot 401.10). -/
def inpC5B : RevLifeInput :=
  { forced := false, lastClose := 801/2, underlying := 4011/10, optPrice := 3 }

/-- REV configuration with RSI period 1 and EMA period 3 (so a 6-bar series
meets `len(df) ≥ rsi_period + 5`). -/
def revCfgShort : RevConfig :=
  { revDefaultConfig with rsi_period := 1, ema_period := 3 }

/-- Six-bar series: closes 10, 10, 10, 100, 60, 60 — the last completed bar
(row 4) has RSI 0 (pure loss over the 1-bar window) and closes above its
3-period EMA (57.5), so it both arms LONG_SETUP and confirms entry. -/
def tsC6 : ℕ → Bar :=
  fun i => if i ≤ 2 then barQ 10 else if i = 3 then barQ 100 else barQ 60

/-- An open CALL with a stop reference far below (stop never fires). -/
def pOldC6 : RevPosition :=
  { pid := 0, ptype := .call, entry_underlying_price := 100, entry_option_price := 2
    entry_strike := 100, stop_loss_price := 1, contracts_remaining := 2, half_sold := false }

/-- 14:56:00 — past the 14:55 force-close gate, before the 15:00 close and
the 15:30 no-new-trades gate. -/
def envC6 : RevEnv :=
  { now := 53760, df := some (6, tsC6), underlying_price := 100, option_price := fun _ => 3 }

/-- State at 14:56 with the old CALL still open. -/
def sC6 : RevState :=
  { positions := [pOldC6], rsi_signal := none, rsi_signal_price := none
    monitoring_started := true, next_pid := 1 }

/-- An open CALL with strike 99 (so spot 100.1 is past strike + 1.05). -/
def pOldC7 : RevPosition :=
  { pid := 0, ptype := .call, entry_underlying_price := 100, entry_option_price := 2
    entry_strike := 99, stop_loss_price := 1, contracts_remaining := 2, half_sold := false }

/-- Mid-session cycle data closing `pOldC7` at the second profit target
(spot 100.1, option quote 3 > entry 2: a profitable close). -/
def envC7a : RevEnv :=
  { now := 40000, df := some (6, tsFlat100), underlying_price := 1001/10
    option_price := fun _ => 3 }

/-- State holding the profitable CALL, detector idle. -/
def sC7 : RevState :=
  { positions := [pOldC7], rsi_signal := none, rsi_signal_price := none
    monitoring_started := true, next_pid := 1 }

/-- Six-bar series for the next cycle: closes 100, 100, 100, 100, 60, 60 —
row 4 has RSI 0 again (same LONG extreme) but does not confirm entry
(60 < its 3-period EMA 80). -/
def tsC7 : ℕ → Bar := fun i => if i ≤ 3 then barQ 100 else barQ 60

/-- The cycle right after the profitable close. -/
def envC7b : RevEnv :=
  { now := 40100, df := some (6, tsC7), underlying_price := 100, option_price := fun _ => 3 }

/-- Empty-position REV state (as right after a closed trade). -/
def sC7w : RevState :=
  { positions := [], rsi_signal := none, rsi_signal_price := none
    monitoring_started := true, next_pid := 1 }

/-- Closes 10, 5, 5, … (one falling step): RSI over a 1-bar window is 0. -/
def cW8 : ℕ → ℚ := fun i => if i = 0 then 10 else 5

/-- Two-day VWAP series: day 0 rows 0–1 (closes 2, 4, volumes 5, 5), day 1
rows 2+ (closes 10, 20, volumes 2, 6). -/
def tsW9 : ℕ → Bar :=
  fun i =>
    if i = 0 then { day := 0, tsec := 0, open_ := 2, high := 2, low := 2, close := 2, volume := 5 }
    else if i = 1 then { day := 0, tsec := 300, open_ := 4, high := 4, low := 4, close := 4, volume := 5 }
    else if i = 2 then { day := 1, tsec := 0, open_ := 10, high := 10, low := 10, close := 10, volume := 2 }
    else { day := 1, tsec := 300, open_ := 20, high := 20, low := 20, close := 20, volume := 6 }

/-- ORB state with the opening range captured ([399, 404]) and no position. -/
def orbStateW10 : OrbState :=
  { opening_range_high := some 404, opening_range_low := some 399, opening_range_set := true
    position := none, entry_underlying_price := none, entry_option_price := none
    entry_strike := none, half_position_closed := false, daily_trade_done := false }

/-- An ORB environment on a later day with no data this cycle. -/
def orbEnvW10 : OrbEnv :=
  { now := 40000, today := 3, df := none, underlying_price := 100, option_price := 1 }

/-- A BOSK CALL position (entry 400 / option 2 / strike 400, 2 contracts). -/
def pB1 : BoskPosition :=
  { pid := 0, ptype := .call, entry_underlying_price := 400, entry_option_price := 2
    entry_strike := 400, contracts_remaining := 2, half_sold := false }

/-- Flat 390 series: the last completed close 390 is below the 398 range
low. -/
def tsOrbStop : ℕ → Bar := fun _ => barQ 390

/-- A REV environment with no DataFrame (quotes only). -/
def envRevW3 : RevEnv :=
  { now := 40000, df := none, underlying_price := 100, option_price := fun _ => 2 }

/-- REV state already holding a CALL (`pC4`). -/
def sRevW3 : RevState :=
  { positions := [pC4], rsi_signal := none, rsi_signal_price := none
    monitoring_started := true, next_pid := 1 }

/-- The CALL opened by the first BOSK counterexample cycle. -/
def p1Bosk : BoskPosition :=
  { pid := 0, ptype := .call, entry_underlying_price := 100, entry_option_price := 2
    entry_strike := 100, contracts_remaining := 2, half_sold := false }

/-- BOSK state after the first counterexample cycle: one CALL open, signal
conditions unchanged. -/
def s1Bosk : BoskState :=
  { positions := [p1Bosk], wait_for_ema20_cross := false, last_profit_side := none
    monitoring_started := true, next_pid := 1 }

/-! ## Helper lemmas -/

lemma gainPart_nonneg (q : ℚ) : 0 ≤ gainPart q := by
  unfold gainPart; split <;> linarith

lemma lossPart_nonneg (q : ℚ) : 0 ≤ lossPart q := by
  unfold lossPart; split <;> linarith

lemma gainAvg_nonneg (p : ℕ) (c : ℕ → ℚ) (i : ℕ) : 0 ≤ gainAvg p c i := by
  unfold gainAvg
  apply div_nonneg _ (by positivity)
  exact Finset.sum_nonneg fun j _ => gainPart_nonneg _

lemma lossAvg_nonneg (p : ℕ) (c : ℕ → ℚ) (i : ℕ) : 0 ≤ lossAvg p c i := by
  unfold lossAvg
  apply div_nonneg _ (by positivity)
  exact Finset.sum_nonneg fun j _ => lossPart_nonneg _

/-- C8.  RSI (as computed by `SPYREVStrategy.calculate_indicators`) is
undefined (NaN, here `none`) at each of the first `p` bars; wherever it is
defined its value lies in [0, 100]; and `check_rsi_signal` treats an
undefined RSI as no signal. -/
theorem rsi_undefined_then_bounded (p : ℕ) (c : ℕ → ℚ) :
    (∀ i, i < p → rsiAt p c i = none) ∧
    (∀ i x, rsiAt p c i = some x → 0 ≤ x ∧ x ≤ 100) ∧
    (∀ (cfg : RevConfig) (n : ℕ) (ts : ℕ → Bar),
        rsiAt cfg.rsi_period (fun j => (ts j).close) (n - 2) = none →
        revCheckRsiSignal cfg n ts = none) := by
  refine ⟨fun i hi => by simp [rsiAt, hi], fun i x hx => ?_, fun cfg n ts h => ?_⟩
  · unfold rsiAt at hx
    by_cases hip : i < p
    · simp [hip] at hx
    · simp only [hip, if_false] at hx
      have hg : 0 ≤ gainAvg p c i := gainAvg_nonneg p c i
      have hl : 0 ≤ lossAvg p c i := lossAvg_nonneg p c i
      by_cases hl0 : lossAvg p c i = 0
      · rw [if_pos hl0] at hx
        by_cases hg0 : gainAvg p c i = 0
        · simp [hg0] at hx
        · simp only [hg0, if_false, Option.some.injEq] at hx
          constructor <;> linarith [hx]
      · rw [if_neg hl0] at hx
        have hlpos : 0 < lossAvg p c i := lt_of_le_of_ne hl (Ne.symm hl0)
        have hrs : 0 ≤ gainAvg p c i / lossAvg p c i := div_nonneg hg hlpos.le
        have h2 : 100 / (1 + gainAvg p c i / lossAvg p c i) ≤ 100 :=
          div_le_self (by norm_num) (by linarith)
        have h3 : 0 ≤ 100 / (1 + gainAvg p c i / lossAvg p c i) := by positivity
        simp only [Option.some.injEq] at hx
        constructor <;> linarith [hx]
  · unfold revCheckRsiSignal
    by_cases hn : n < 2
    · simp [hn]
    · simp [hn, h]

/-- Witness for C8 at concrete inputs: RSI 14 is NaN at row 0 of a flat
series; RSI 1 at row 1 of `cW8` is defined (value 0) and bounded; a NaN RSI
gives no signal for a 2-row series under the default config. -/
theorem rsi_undefined_then_bounded_witness :
    rsiAt 14 (fun j => (tsFlat100 j).close) 0 = none ∧
    (0 ≤ (0 : ℚ) ∧ (0 : ℚ) ≤ 100) ∧
    revCheckRsiSignal revDefaultConfig 2 tsFlat100 = none := by
  refine ⟨(rsi_undefined_then_bounded 14 (fun j => (tsFlat100 j).close)).1 0 (by norm_num),
    (rsi_undefined_then_bounded 1 cW8).2.1 1 0 ?_,
    (rsi_undefined_then_bounded 14 (fun j => (tsFlat100 j).close)).2.2
      revDefaultConfig 2 tsFlat100 ?_⟩
  · norm_num [rsiAt, gainAvg, lossAvg, gainPart, lossPart, cW8, Finset.Icc_self]
  · norm_num [rsiAt, revDefaultConfig]

lemma groupCumsum_shift (val : ℕ → ℚ) (day : ℕ → ℤ) (m i : ℕ) (hmi : m ≤ i)
    (hdiff : ∀ j, j < m → day j ≠ day i) :
    (∑ j in Finset.range (i + 1), if day j = day i then val j else 0) =
    ∑ k in Finset.range (i - m + 1), if day (m + k) = day i then val (m + k) else 0 := by
  rw [Finset.range_eq_Ico,
    ← Finset.sum_Ico_consecutive _ (Nat.zero_le m) (by omega : m ≤ i + 1)]
  have h0 : (∑ j in Finset.Ico 0 m, if day j = day i then val j else 0) = 0 := by
    apply Finset.sum_eq_zero
    intro j hj
    rw [Finset.mem_Ico] at hj
    simp [hdiff j hj.2]
  rw [h0, zero_add, Finset.sum_Ico_eq_sum_range]
  have he : i + 1 - m = i - m + 1 := by omega
  rw [he, ← Finset.range_eq_Ico]

/-- C9.  The VWAP columns of `SPYEMAChad.calculate_indicators` restart at a
session boundary: if rows before `m` belong to earlier calendar days and
rows from `m` on belong to row `i`'s day, then the cumulative sums and VWAP
at row `i` coincide with those computed over the day's rows alone (the
series shifted by `m`) — no volume of an earlier day contributes. -/
theorem vwap_session_reset (ts : ℕ → Bar) (m i : ℕ) (hmi : m ≤ i)
    (hdiff : ∀ j, j < m → (ts j).day ≠ (ts i).day)
    (hsame : ∀ j, m ≤ j → (ts j).day = (ts i).day) :
    cum_vol ts i = cum_vol (fun k => ts (m + k)) (i - m) ∧
    cum_vol_price ts i = cum_vol_price (fun k => ts (m + k)) (i - m) ∧
    vwapAt ts i = vwapAt (fun k => ts (m + k)) (i - m) := by
  have hidx : m + (i - m) = i := by omega
  have h1 : cum_vol ts i = cum_vol (fun k => ts (m + k)) (i - m) := by
    unfold cum_vol
    simp only [hidx]
    exact groupCumsum_shift (fun j => (ts j).volume) (fun j => (ts j).day) m i hmi hdiff
  have h2 : cum_vol_price ts i = cum_vol_price (fun k => ts (m + k)) (i - m) := by
    unfold cum_vol_price
    simp only [hidx]
    exact groupCumsum_shift (fun j => volume_x_price (ts j)) (fun j => (ts j).day) m i hmi hdiff
  exact ⟨h1, h2, by unfold vwapAt; rw [h1, h2]⟩

/-- Witness for C9: the two-day series `tsW9` with the day boundary at row
2, evaluated at row 3. -/
theorem vwap_session_reset_witness :
    cum_vol tsW9 3 = cum_vol (fun k => tsW9 (2 + k)) 1 ∧
    cum_vol_price tsW9 3 = cum_vol_price (fun k => tsW9 (2 + k)) 1 ∧
    vwapAt tsW9 3 = vwapAt (fun k => tsW9 (2 + k)) 1 := by
  have h := vwap_session_reset tsW9 2 3 (by norm_num)
    (by
      intro j hj
      interval_cases j <;> simp [tsW9])
    (by
      intro j hj
      have h0 : j ≠ 0 := by omega
      have h1 : j ≠ 1 := by omega
      by_cases h2 : j = 2 <;> simp [tsW9, h0, h1, h2])
  exact h

lemma orbExitAll_range (cfg : OrbConfig) (s : OrbState) (reason : ExitReason) :
    (orbExitAll cfg s reason).1.opening_range_high = s.opening_range_high ∧
    (orbExitAll cfg s reason).1.opening_range_low = s.opening_range_low ∧
    (orbExitAll cfg s reason).1.opening_range_set = s.opening_range_set := by
  unfold orbExitAll
  split <;> simp

set_option maxHeartbeats 1000000 in
lemma orbManage_range (cfg : OrbConfig) (env : OrbEnv) (n : ℕ) (ts : ℕ → Bar)
    (s : OrbState) :
    (orbManage cfg env n ts s).1.opening_range_high = s.opening_range_high ∧
    (orbManage cfg env n ts s).1.opening_range_low = s.opening_range_low ∧
    (orbManage cfg env n ts s).1.opening_range_set = s.opening_range_set := by
  suffices key : ∀ s' evs, orbManage cfg env n ts s = (s', evs) →
      s'.opening_range_high = s.opening_range_high ∧
      s'.opening_range_low = s.opening_range_low ∧
      s'.opening_range_set = s.opening_range_set by
    exact key _ _ rfl
  intro s' evs heq
  simp only [orbManage] at heq
  repeat' split at heq
  all_goals
    first
    | (cases heq; simp)
    | (have h' := congrArg Prod.fst heq
       simp only at h'
       rw [← h']
       unfold orbExitAll
       split <;> simp)

lemma orbExitAll_high (cfg : OrbConfig) (s : OrbState) (reason : ExitReason) :
    (orbExitAll cfg s reason).1.opening_range_high = s.opening_range_high :=
  (orbExitAll_range cfg s reason).1

lemma orbExitAll_low (cfg : OrbConfig) (s : OrbState) (reason : ExitReason) :
    (orbExitAll cfg s reason).1.opening_range_low = s.opening_range_low :=
  (orbExitAll_range cfg s reason).2.1

lemma orbExitAll_set (cfg : OrbConfig) (s : OrbState) (reason : ExitReason) :
    (orbExitAll cfg s reason).1.opening_range_set = s.opening_range_set :=
  (orbExitAll_range cfg s reason).2.2

lemma orbManage_high (cfg : OrbConfig) (env : OrbEnv) (n : ℕ) (ts : ℕ → Bar)
    (s : OrbState) :
    (orbManage cfg env n ts s).1.opening_range_high = s.opening_range_high :=
  (orbManage_range cfg env n ts s).1

lemma orbManage_low (cfg : OrbConfig) (env : OrbEnv) (n : ℕ) (ts : ℕ → Bar)
    (s : OrbState) :
    (orbManage cfg env n ts s).1.opening_range_low = s.opening_range_low :=
  (orbManage_range cfg env n ts s).2.1

lemma orbManage_set (cfg : OrbConfig) (env : OrbEnv) (n : ℕ) (ts : ℕ → Bar)
    (s : OrbState) :
    (orbManage cfg env n ts s).1.opening_range_set = s.opening_range_set :=
  (orbManage_range cfg env n ts s).2.2

/-- C10.  Once `opening_range_set` is true, no iteration of
`SPYORBStrategy.run` — including the market-closed branch, which resets only
`daily_trade_done` — recomputes or clears the stored opening range: the
range captured on the first day is what every later cycle's breakout
entries and range stop-losses read. -/
theorem orb_opening_range_persistent (cfg : OrbConfig) (env : OrbEnv)
    (s : OrbState) (h : s.opening_range_set = true) :
    (orbCycle cfg env s).1.opening_range_set = true ∧
    (orbCycle cfg env s).1.opening_range_high = s.opening_range_high ∧
    (orbCycle cfg env s).1.opening_range_low = s.opening_range_low := by
  suffices key : ∀ s' evs, orbCycle cfg env s = (s', evs) →
      s'.opening_range_set = true ∧
      s'.opening_range_high = s.opening_range_high ∧
      s'.opening_range_low = s.opening_range_low by
    exact key _ _ rfl
  intro s' evs heq
  simp only [orbCycle] at heq
  repeat' split at heq
  all_goals
    first
    | (cases heq
       simp_all [orbExitAll_high, orbExitAll_low, orbExitAll_set,
         orbManage_high, orbManage_low, orbManage_set, orbEnterPosition])
    | (exfalso
       simp_all [orbExitAll_set])

/-- Witness for C10 at a concrete later-day state: the captured range
[399, 404] survives a cycle. -/
theorem orb_opening_range_persistent_witness :
    (orbCycle orbDefaultConfig orbEnvW10 orbStateW10).1.opening_range_set = true ∧
    (orbCycle orbDefaultConfig orbEnvW10 orbStateW10).1.opening_range_high =
      orbStateW10.opening_range_high ∧
    (orbCycle orbDefaultConfig orbEnvW10 orbStateW10).1.opening_range_low =
      orbStateW10.opening_range_low :=
  orb_opening_range_persistent orbDefaultConfig orbEnvW10 orbStateW10 (by rfl)

/-- C1 (amended).  In the REV, ORB and BOSK variants the stop-loss check is
evaluated first and `continue`s when it fires, so when a stop-loss and a
profit-target condition hold simultaneously the position is fully exited
with reason stop-loss and no profit-target exit fires that cycle.  In the
EMA/VWAP variant (`SPYEMAChad.run`) the profit-target check runs FIRST, so
when both conditions hold the profit-target exit fires and the stop-loss
does not. -/
theorem exit_priority_by_variant :
    (∀ (cfg : RevConfig) (lastClose underlying optPrice : ℚ) (p : RevPosition),
        revCheckStopLoss p lastClose = true →
        revManageOne cfg lastClose underlying optPrice p =
          (none, [RevEvent.sell p.pid p.contracts_remaining .stopLoss false])) ∧
    (∀ (cfg : BoskConfig) (lastClose ema9 underlying optPrice : ℚ) (p : BoskPosition),
        boskCheckStopLoss p lastClose ema9 = true →
        (boskManageOne cfg lastClose ema9 underlying optPrice p).1 = none ∧
        (boskManageOne cfg lastClose ema9 underlying optPrice p).2.1 =
          [BoskEvent.sell p.pid p.contracts_remaining .stopLoss false]) ∧
    (∀ (cfg : OrbConfig) (env : OrbEnv) (n : ℕ) (ts : ℕ → Bar) (s : OrbState),
        (s.position = some .call ∧ (ts (n - 2)).close < s.opening_range_low.getD 0) ∨
        (s.position = some .put ∧ (ts (n - 2)).close > s.opening_range_high.getD 0) →
        (orbManage cfg env n ts s).1.position = none ∧
        (orbManage cfg env n ts s).2 =
          [OrbEvent.exitAll
            (if s.half_position_closed then cfg.contracts / 2 else cfg.contracts)
            .stopLoss]) ∧
    (∀ (cfg : EmaConfig) (s : EmaState) (cp : ℚ) (n : ℕ) (ts : ℕ → Bar),
        emaCheckProfitTarget cfg s cp = true →
        emaCheckStopLoss cfg s cp n ts = true →
        (emaExitStep cfg s cp n ts).2 = some .profitTarget ∧
        (emaExitStep cfg s cp n ts).2 ≠ some .stopLoss) := by
  refine ⟨fun cfg lc u o p hstop => ?_, fun cfg lc e9 u o p hstop => ?_,
    fun cfg env n ts s hyp => ?_, fun cfg s cp n ts hpt hsl => ?_⟩
  · simp [revManageOne, hstop, revExitPosition]
  · simp [boskManageOne, hstop, boskExitPosition]
  · rcases hyp with ⟨hc, hlt⟩ | ⟨hp, hgt⟩
    · constructor <;> simp [orbManage, orbExitAll, hc, hlt]
    · constructor <;> simp [orbManage, orbExitAll, hp, hgt]
  · cases hp : s.position with
    | none => simp [emaCheckProfitTarget, hp] at hpt
    | some dir =>
      constructor
      · simp [emaExitStep, hp, hpt]
      · simp [emaExitStep, hp, hpt]

/-- Counterexample to C1 as stated: in the EMA/VWAP variant a cycle where
the profit target (spot 101.5, LONG entered at 100, target $1) and the
stop loss (spot below the 200-valued EMAs and VWAP of the last completed
bar) are both true exits with reason "Profit target reached", not
stop-loss. -/
theorem ema_profit_before_stop_cex :
    emaCheckProfitTarget emaDefaultConfig emaBothState (203/2) = true ∧
    emaCheckStopLoss emaDefaultConfig emaBothState (203/2) 2 tsFlat200 = true ∧
    (emaExitStep emaDefaultConfig emaBothState (203/2) 2 tsFlat200).2 =
      some .profitTarget := by
  refine ⟨?_, ?_, ?_⟩ <;>
    norm_num [emaCheckProfitTarget, emaCheckStopLoss, emaExitStep, emaDefaultConfig,
      emaBothState, tsFlat200, barQ, ewmAt, vwapAt, cum_vol, cum_vol_price,
      typical_price, volume_x_price, Finset.sum_range_succ]

/-- Witness for C1 at concrete inputs: a REV CALL with stop 398 against a
close of 390; a BOSK CALL with close 1 under EMA9 2; an ORB CALL with close
390 under range low 398 while the second profit target also holds; the EMA
both-conditions state. -/
theorem exit_priority_by_variant_witness :
    revManageOne revDefaultConfig 390 0 0 pC4 =
      (none, [RevEvent.sell pC4.pid pC4.contracts_remaining .stopLoss false]) ∧
    ((boskManageOne boskDefaultConfig 1 2 0 0 pB1).1 = none ∧
      (boskManageOne boskDefaultConfig 1 2 0 0 pB1).2.1 =
        [BoskEvent.sell pB1.pid pB1.contracts_remaining .stopLoss false]) ∧
    ((orbManage orbCfgC5 orbEnvB 6 tsOrbStop orbStateC5).1.position = none ∧
      (orbManage orbCfgC5 orbEnvB 6 tsOrbStop orbStateC5).2 =
        [OrbEvent.exitAll
          (if orbStateC5.half_position_closed then orbCfgC5.contracts / 2
            else orbCfgC5.contracts) .stopLoss]) ∧
    ((emaExitStep emaDefaultConfig emaBothState (203/2) 2 tsFlat200).2 =
        some .profitTarget ∧
      (emaExitStep emaDefaultConfig emaBothState (203/2) 2 tsFlat200).2 ≠
        some .stopLoss) := by
  refine ⟨exit_priority_by_variant.1 revDefaultConfig 390 0 0 pC4 ?_,
    exit_priority_by_variant.2.1 boskDefaultConfig 1 2 0 0 pB1 ?_,
    exit_priority_by_variant.2.2.1 orbCfgC5 orbEnvB 6 tsOrbStop orbStateC5 ?_,
    exit_priority_by_variant.2.2.2 emaDefaultConfig emaBothState (203/2) 2 tsFlat200 ?_ ?_⟩
  · norm_num [revCheckStopLoss, pC4]
  · norm_num [boskCheckStopLoss, pB1]
  · left
    refine ⟨by norm_num [orbStateC5], ?_⟩
    norm_num [tsOrbStop, barQ, orbStateC5]
  · norm_num [emaCheckProfitTarget, emaDefaultConfig, emaBothState]
  · norm_num [emaCheckStopLoss, emaDefaultConfig, emaBothState, tsFlat200, barQ,
      ewmAt, vwapAt, cum_vol, cum_vol_price, typical_price, volume_x_price,
      Finset.sum_range_succ]

lemma ewmAt_congr (span : ℕ) (x y : ℕ → ℚ) :
    ∀ i, (∀ j, j ≤ i → x j = y j) → ewmAt span x i = ewmAt span y i := by
  intro i
  induction i with
  | zero => intro h; simpa [ewmAt] using h 0 le_rfl
  | succ k ih =>
    intro h
    simp only [ewmAt]
    rw [h (k + 1) le_rfl, ih fun j hj => h j (Nat.le_succ_of_le hj)]

lemma gainAvg_congr (p : ℕ) (x y : ℕ → ℚ) (i : ℕ) (h : ∀ j, j ≤ i → x j = y j) :
    gainAvg p x i = gainAvg p y i := by
  unfold gainAvg
  congr 1
  refine Finset.sum_congr rfl fun j hj => ?_
  rw [Finset.mem_Icc] at hj
  rw [h j hj.2, h (j - 1) (le_trans (Nat.sub_le j 1) hj.2)]

lemma lossAvg_congr (p : ℕ) (x y : ℕ → ℚ) (i : ℕ) (h : ∀ j, j ≤ i → x j = y j) :
    lossAvg p x i = lossAvg p y i := by
  unfold lossAvg
  congr 1
  refine Finset.sum_congr rfl fun j hj => ?_
  rw [Finset.mem_Icc] at hj
  rw [h j hj.2, h (j - 1) (le_trans (Nat.sub_le j 1) hj.2)]

lemma rsiAt_congr (p : ℕ) (x y : ℕ → ℚ) (i : ℕ) (h : ∀ j, j ≤ i → x j = y j) :
    rsiAt p x i = rsiAt p y i := by
  unfold rsiAt
  rw [gainAvg_congr p x y i h, lossAvg_congr p x y i h]

lemma trAt_congr (ts ts' : ℕ → Bar) (i : ℕ) (h : ∀ j, j ≤ i → ts j = ts' j) :
    trAt ts i = trAt ts' i := by
  cases i with
  | zero => simp only [trAt]; rw [h 0 le_rfl]
  | succ k =>
    simp only [trAt]
    rw [h (k + 1) le_rfl, h k (Nat.le_succ k)]

lemma atrAt_congr (p : ℕ) (ts ts' : ℕ → Bar) (i : ℕ) (h : ∀ j, j ≤ i → ts j = ts' j) :
    atrAt p ts i = atrAt p ts' i := by
  unfold atrAt
  exact ewmAt_congr p _ _ i fun j hj => trAt_congr ts ts' j fun k hk => h k (le_trans hk hj)

lemma bars_agree_upto (n : ℕ) (ts ts' : ℕ → Bar) (h : ∀ i, i + 1 < n → ts i = ts' i)
    (hn : 2 ≤ n) : ∀ j, j ≤ n - 2 → ts j = ts' j :=
  fun j hj => h j (by omega)

/-- C2 (amended).  The REV, ORB and BOSK signal detectors read only the last
completed bar (`iloc[-2]`) and indicator values derived from bars up to it:
two series of equal length that differ only in the last (in-progress) bar
produce identical signals.  The claim fails for the EMA/VWAP variant: its
entry confirmation reads the short EMA of the LAST row (`iloc[-1]`), so two
such series can produce different entry decisions. -/
theorem detector_ignores_forming_bar (n : ℕ) (ts ts' : ℕ → Bar)
    (h : ∀ i, i + 1 < n → ts i = ts' i) :
    (∀ cfg : RevConfig, revCheckRsiSignal cfg n ts = revCheckRsiSignal cfg n ts') ∧
    (∀ (cfg : RevConfig) (sig : Option RevSetup),
        revCheckEntryConditions cfg sig n ts = revCheckEntryConditions cfg sig n ts') ∧
    (∀ s : OrbState, 2 ≤ n → orbEntrySignal s n ts = orbEntrySignal s n ts') ∧
    (∀ cfg : BoskConfig, boskCheckEntrySignal cfg n ts = boskCheckEntrySignal cfg n ts') ∧
    (∃ (cfg : EmaConfig) (s : EmaState) (m : ℕ) (us us' : ℕ → Bar) (cp : ℚ),
        (∀ i, i + 1 < m → us i = us' i) ∧
        emaEntryDecision cfg s m us cp ≠ emaEntryDecision cfg s m us' cp) := by
  refine ⟨fun cfg => ?_, fun cfg sig => ?_, fun s hn2 => ?_, fun cfg => ?_, ?_⟩
  · by_cases hn : n < 2
    · simp [revCheckRsiSignal, hn]
    · have hb := bars_agree_upto n ts ts' h (by omega)
      unfold revCheckRsiSignal
      rw [if_neg hn,
        rsiAt_congr cfg.rsi_period (fun j => (ts j).close) (fun j => (ts' j).close)
          (n - 2) (fun j hj => congrArg Bar.close (hb j hj)),
        hb (n - 2) le_rfl, if_neg hn]
  · by_cases hc : n < 2 ∨ sig = none
    · simp only [revCheckEntryConditions, if_pos hc]
    · have hn : 2 ≤ n := by omega
      have hb := bars_agree_upto n ts ts' h hn
      unfold revCheckEntryConditions
      rw [if_neg hc,
        ewmAt_congr cfg.ema_period (fun j => (ts j).close) (fun j => (ts' j).close)
          (n - 2) (fun j hj => congrArg Bar.close (hb j hj)),
        hb (n - 2) le_rfl, if_neg hc]
  · have hb := bars_agree_upto n ts ts' h hn2
    unfold orbEntrySignal
    rw [hb (n - 2) le_rfl]
  · by_cases hn : n < 4
    · simp [boskCheckEntrySignal, hn]
    · have hb := bars_agree_upto n ts ts' h (by omega)
      have hbos : boskBreakOfStructure ts (n - 2) = boskBreakOfStructure ts' (n - 2) := by
        unfold boskBreakOfStructure
        by_cases h3 : n - 2 < 3
        · simp [h3]
        · rw [hb (n - 2 - 3) (by omega), hb (n - 2 - 2) (by omega),
            hb (n - 2 - 1) (by omega), hb (n - 2) le_rfl]
      have hup : kcUpperAt cfg ts (n - 2) = kcUpperAt cfg ts' (n - 2) := by
        unfold kcUpperAt
        rw [ewmAt_congr cfg.ema20_period (fun j => (ts j).close) (fun j => (ts' j).close)
            (n - 2) (fun j hj => congrArg Bar.close (hb j hj)),
          atrAt_congr cfg.atr_period ts ts' (n - 2) hb]
      have hlo : kcLowerAt cfg ts (n - 2) = kcLowerAt cfg ts' (n - 2) := by
        unfold kcLowerAt
        rw [ewmAt_congr cfg.ema20_period (fun j => (ts j).close) (fun j => (ts' j).close)
            (n - 2) (fun j hj => congrArg Bar.close (hb j hj)),
          atrAt_congr cfg.atr_period ts ts' (n - 2) hb]
      simp only [boskCheckEntrySignal]
      rw [if_neg hn, hbos, hup, hlo, hb (n - 2) le_rfl, if_neg hn]
  · refine ⟨emaDefaultConfig, emaWaitState, 2, tsC2A, tsC2B, 100,
      fun i hi => by
        have h0 : i = 0 := by omega
        subst h0
        rfl, ?_⟩
    have hA : emaEntryDecision emaDefaultConfig emaWaitState 2 tsC2A 100 = some .long := by
      norm_num [emaEntryDecision, emaCheckForEntry, emaWaitState, emaDefaultConfig,
        tsC2A, barQ, ewmAt]
    have hB : emaEntryDecision emaDefaultConfig emaWaitState 2 tsC2B 100 = none := by
      norm_num [emaEntryDecision, emaCheckForEntry, emaWaitState, emaDefaultConfig,
        tsC2B, bar200T, barQ, ewmAt, abs_sub_lt_iff]
    rw [hA, hB]
    simp

/-- Counterexample to C2 as stated: two 2-bar series agreeing on the
completed bar but differing in the forming bar (close 100 vs 200) make the
EMA/VWAP variant's entry decision flip (LONG entry vs none), because
`SPYEMAChad.run` hands `check_for_entry` the short EMA of `df.iloc[-1]`. -/
theorem ema_last_bar_dependence_cex :
    tsC2A 0 = tsC2B 0 ∧
    emaEntryDecision emaDefaultConfig emaWaitState 2 tsC2A 100 = some .long ∧
    emaEntryDecision emaDefaultConfig emaWaitState 2 tsC2B 100 = none := by
  refine ⟨rfl, ?_, ?_⟩
  · norm_num [emaEntryDecision, emaCheckForEntry, emaWaitState, emaDefaultConfig,
      tsC2A, barQ, ewmAt]
  · norm_num [emaEntryDecision, emaCheckForEntry, emaWaitState, emaDefaultConfig,
      tsC2B, bar200T, barQ, ewmAt, abs_sub_lt_iff]

/-- Witness for C2: the three-bar series `tsC2W` / `tsC2W'` differ only in
their last bar; all four detector values coincide on them. -/
theorem detector_ignores_forming_bar_witness :
    revCheckRsiSignal revDefaultConfig 3 tsC2W = revCheckRsiSignal revDefaultConfig 3 tsC2W' ∧
    revCheckEntryConditions revDefaultConfig (some .longSetup) 3 tsC2W =
      revCheckEntryConditions revDefaultConfig (some .longSetup) 3 tsC2W' ∧
    orbEntrySignal orbStateW10 3 tsC2W = orbEntrySignal orbStateW10 3 tsC2W' ∧
    boskCheckEntrySignal boskDefaultConfig 3 tsC2W = boskCheckEntrySignal boskDefaultConfig 3 tsC2W' := by
  have h := detector_ignores_forming_bar 3 tsC2W tsC2W'
    (by
      intro i hi
      have h1 : i ≤ 1 := by omega
      simp [tsC2W, tsC2W', h1])
  exact ⟨h.1 revDefaultConfig, h.2.1 revDefaultConfig (some .longSetup),
    h.2.2.1 orbStateW10 (by norm_num), h.2.2.2.1 boskDefaultConfig⟩

/-- C3 (amended).  `SPYREVStrategy.enter_position` rejects an entry for a
side that already has an open position before any order is placed (state
unchanged, no order).  `SPYBOSKStrategy.enter_position` performs no such
check: it always places the BUY and appends the new position, so the count
of same-side open positions grows by one even when one is already open. -/
theorem single_position_per_side :
    (∀ (cfg : RevConfig) (env : RevEnv) (s : RevState) (t : OptionSide),
        revHasPositionType s.positions t = true →
        revEnterPosition cfg env s t = (s, [])) ∧
    (∀ (cfg : BoskConfig) (env : BoskEnv) (s : BoskState) (t : OptionSide),
        (boskEnterPosition cfg env s t).1.positions.countP (fun p => decide (p.ptype = t)) =
          s.positions.countP (fun p => decide (p.ptype = t)) + 1) := by
  constructor
  · intro cfg env s t hdup
    simp [revEnterPosition, hdup]
  · intro cfg env s t
    simp [boskEnterPosition, List.countP_append, List.countP_cons]

/-- Witness for C3: a REV state already holding a CALL rejects a second CALL
entry; a BOSK state gains a CALL unconditionally. -/
theorem single_position_per_side_witness :
    revEnterPosition revDefaultConfig envRevW3 sRevW3 .call = (sRevW3, []) ∧
    (boskEnterPosition boskDefaultConfig boskCexEnv boskCexState .call).1.positions.countP
        (fun p => decide (p.ptype = .call)) =
      boskCexState.positions.countP (fun p => decide (p.ptype = .call)) + 1 := by
  refine ⟨single_position_per_side.1 revDefaultConfig envRevW3 sRevW3 .call ?_,
    single_position_per_side.2 boskDefaultConfig boskCexEnv boskCexState .call⟩
  norm_num [revHasPositionType, sRevW3, pC4]


set_option maxHeartbeats 2000000 in
/-- Counterexample to C3 as stated: from a clean BOSK state, a cycle whose
last completed candle is a break-of-structure + Keltner cross opens a CALL;
the very next cycle with the same data opens a SECOND CALL — the entry is
not rejected, leaving two CALL positions open simultaneously. -/
theorem bosk_double_call_cex :
    boskCycle boskCexCfg boskCexEnv boskCexState = (s1Bosk, [BoskEvent.buy 0 2]) ∧
    ((boskCycle boskCexCfg boskCexEnv s1Bosk).1.positions.map (fun p => p.ptype)) =
      [.call, .call] := by
  constructor
  · norm_num [boskCycle, boskIsMarketOpen, boskIsForceCloseTime, boskShouldStartMonitoring,
      boskCanOpenNewTrades, boskCheckEma20CrossReset, boskCheckEntrySignal,
      boskBreakOfStructure, kcUpperAt, kcLowerAt, ewmAt, atrAt, trAt,
      boskEnterPosition, boskManagePositions, boskManageOne, boskCheckStopLoss,
      boskCheckProfitTargets, boskExitPosition, boskApplyGuardUpdates,
      boskCloseAllPositions, boskCexCfg, boskDefaultConfig, boskCexEnv, boskCexState,
      s1Bosk, p1Bosk, tsBosk, boskBar6, barQ, round_eq]
  · norm_num [boskCycle, boskIsMarketOpen, boskIsForceCloseTime, boskShouldStartMonitoring,
      boskCanOpenNewTrades, boskCheckEma20CrossReset, boskCheckEntrySignal,
      boskBreakOfStructure, kcUpperAt, kcLowerAt, ewmAt, atrAt, trAt,
      boskEnterPosition, boskManagePositions, boskManageOne, boskCheckStopLoss,
      boskCheckProfitTargets, boskExitPosition, boskApplyGuardUpdates,
      boskCloseAllPositions, boskCexCfg, boskDefaultConfig, boskCexEnv,
      s1Bosk, p1Bosk, tsBosk, boskBar6, barQ, round_eq]

lemma revLifeRun_none (cfg : RevConfig) (inputs : List RevLifeInput) :
    revLifeRun cfg inputs none = (none, 0) := by
  cases inputs <;> simp [revLifeRun]

lemma revCheckProfitTargets_firstTarget (cfg : RevConfig) (u o : ℚ) (p : RevPosition)
    (he : revCheckProfitTargets cfg u o p = some .firstTarget) : p.half_sold = false := by
  unfold revCheckProfitTargets at he
  split_ifs at he with h1 h2 h3
  all_goals
    first
    | (simp only [Bool.and_eq_true, Bool.not_eq_true'] at h1
       exact h1.1)
    | simp at he

lemma revLifeStep_spec (cfg : RevConfig) (inp : RevLifeInput) (p : RevPosition)
    (h0 : p.half_sold = false → p.contracts_remaining = cfg.contracts)
    (h1 : p.half_sold = true → p.contracts_remaining = cfg.contracts - cfg.contracts / 2) :
    ((revLifeStep cfg inp p).1 = none →
      soldQty (revLifeStep cfg inp p).2 = p.contracts_remaining) ∧
    (∀ p', (revLifeStep cfg inp p).1 = some p' →
      soldQty (revLifeStep cfg inp p).2 + p'.contracts_remaining = p.contracts_remaining ∧
      (p'.half_sold = false → p'.contracts_remaining = cfg.contracts) ∧
      (p'.half_sold = true → p'.contracts_remaining = cfg.contracts - cfg.contracts / 2) ∧
      p'.contracts_remaining ≤ p.contracts_remaining) := by
  unfold revLifeStep
  by_cases hf : inp.forced
  · constructor
    · intro _
      simp [hf, revExitPosition, soldQty]
    · intro p' hp'
      simp [hf, revExitPosition] at hp'
  · by_cases hstop : revCheckStopLoss p inp.lastClose = true
    · constructor
      · intro _
        simp [hf, revManageOne, hstop, revExitPosition, soldQty]
      · intro p' hp'
        simp [hf, revManageOne, hstop, revExitPosition] at hp'
    · rcases hT : revCheckProfitTargets cfg inp.underlying inp.optPrice p with _ | t
      · constructor
        · intro hnone
          simp [hf, revManageOne, hstop, hT] at hnone
        · intro p' hp'
          simp [hf, revManageOne, hstop, hT] at hp'
          subst hp'
          simp [hf, revManageOne, hstop, hT, soldQty]
          exact ⟨h0, h1⟩
      · cases t with
        | firstTarget =>
          have hhf : p.half_sold = false := revCheckProfitTargets_firstTarget cfg _ _ p hT
          have hrem : p.contracts_remaining = cfg.contracts := h0 hhf
          by_cases hz : cfg.contracts - cfg.contracts / 2 = 0
          · constructor
            · intro _
              simp [hf, revManageOne, hstop, hT, revExitPosition, hhf, hz, soldQty]
              omega
            · intro p' hp'
              simp [hf, revManageOne, hstop, hT, revExitPosition, hhf, hz] at hp'
          · constructor
            · intro hnone
              simp [hf, revManageOne, hstop, hT, revExitPosition, hhf, hz] at hnone
            · intro p' hp'
              simp [hf, revManageOne, hstop, hT, revExitPosition, hhf, hz] at hp'
              subst hp'
              simp [hf, revManageOne, hstop, hT, revExitPosition, hhf, hz, soldQty]
              omega
        | breakevenStop =>
          constructor
          · intro _
            simp [hf, revManageOne, hstop, hT, revExitPosition, soldQty]
          · intro p' hp'
            simp [hf, revManageOne, hstop, hT, revExitPosition] at hp'
        | secondTarget =>
          constructor
          · intro _
            simp [hf, revManageOne, hstop, hT, revExitPosition, soldQty]
          · intro p' hp'
            simp [hf, revManageOne, hstop, hT, revExitPosition] at hp'

lemma revLifeRun_spec (cfg : RevConfig) (inputs : List RevLifeInput) :
    ∀ (p : RevPosition),
      (p.half_sold = false → p.contracts_remaining = cfg.contracts) →
      (p.half_sold = true → p.contracts_remaining = cfg.contracts - cfg.contracts / 2) →
      ((revLifeRun cfg inputs (some p)).1 = none →
        (revLifeRun cfg inputs (some p)).2 = p.contracts_remaining) ∧
      (∀ p', (revLifeRun cfg inputs (some p)).1 = some p' →
        (revLifeRun cfg inputs (some p)).2 + p'.contracts_remaining = p.contracts_remaining ∧
        (p'.half_sold = false → p'.contracts_remaining = cfg.contracts) ∧
        (p'.half_sold = true → p'.contracts_remaining = cfg.contracts - cfg.contracts / 2) ∧
        p'.contracts_remaining ≤ p.contracts_remaining) := by
  induction inputs with
  | nil =>
    intro p h0 h1
    constructor
    · intro h
      simp [revLifeRun] at h
    · intro p' hp'
      simp [revLifeRun] at hp' ⊢
      subst hp'
      exact ⟨rfl, h0, h1, le_rfl⟩
  | cons inp rest ih =>
    intro p h0 h1
    have hstep := revLifeStep_spec cfg inp p h0 h1
    cases hr : (revLifeStep cfg inp p).1 with
    | none =>
      have hsold := hstep.1 hr
      constructor
      · intro _
        simp [revLifeRun, hr, revLifeRun_none, hsold]
      · intro p' hp'
        simp [revLifeRun, hr, revLifeRun_none] at hp'
    | some p' =>
      obtain ⟨hsum, hi0, hi1, hle⟩ := hstep.2 p' hr
      have hih := ih p' hi0 hi1
      constructor
      · intro hnone
        simp only [revLifeRun, hr] at hnone ⊢
        have := hih.1 hnone
        omega
      · intro p'' hp''
        simp only [revLifeRun, hr] at hp'' ⊢
        obtain ⟨hsum', hj0, hj1, hle'⟩ := hih.2 p'' hp''
        exact ⟨by omega, hj0, hj1, by omega⟩

/-- C4 (amended).  A REV position starts with `contracts_remaining` equal to
the configured contract count; every lifecycle transition keeps
`contracts_remaining` non-increasing; and over any sequence of transitions,
once the position is removed from the active set the TOTAL quantity sold
equals the original count (nothing remains unsold).  The stored field
itself, however, is not zeroed on the final exit (see the counterexample):
at removal it still holds the quantity that was just sold. -/
theorem contracts_remaining_lifecycle (cfg : RevConfig) (inputs : List RevLifeInput)
    (p0 : RevPosition) (hrem : p0.contracts_remaining = cfg.contracts)
    (hhalf : p0.half_sold = false) :
    (∀ (env : RevEnv) (s : RevState) (t : OptionSide),
        revHasPositionType s.positions t = false →
        ((revEnterPosition cfg env s t).1.positions.getLast?).map
          RevPosition.contracts_remaining = some cfg.contracts) ∧
    (∀ (inp : RevLifeInput) (p p' : RevPosition),
        (p.half_sold = false → p.contracts_remaining = cfg.contracts) →
        (p.half_sold = true → p.contracts_remaining = cfg.contracts - cfg.contracts / 2) →
        (revLifeStep cfg inp p).1 = some p' →
        p'.contracts_remaining ≤ p.contracts_remaining) ∧
    ((revLifeRun cfg inputs (some p0)).1 = none →
      (revLifeRun cfg inputs (some p0)).2 = cfg.contracts) ∧
    (∀ p', (revLifeRun cfg inputs (some p0)).1 = some p' →
      (revLifeRun cfg inputs (some p0)).2 + p'.contracts_remaining = cfg.contracts ∧
      p'.contracts_remaining ≤ cfg.contracts) := by
  have hrun := revLifeRun_spec cfg inputs p0 (fun _ => hrem)
    (fun h => by rw [hhalf] at h; cases h)
  refine ⟨?_, ?_, ?_, ?_⟩
  · intro env s t hdup
    simp [revEnterPosition, hdup, List.getLast?_concat]
  · intro inp p p' hp0 hp1 hkept
    exact ((revLifeStep_spec cfg inp p hp0 hp1).2 p' hkept).2.2.2
  · intro hnone
    rw [hrun.1 hnone, hrem]
  · intro p' hp'
    obtain ⟨hsum, _, _, hle⟩ := hrun.2 p' hp'
    rw [hrem] at hsum hle
    exact ⟨hsum, hle⟩

/-- Counterexample to C4 as stated: with 2 contracts, the first-target
partial exit leaves the dict at `contracts_remaining = 1`; the subsequent
full exit removes the position from the list while its
`contracts_remaining` field is still 1, not 0 — the source never assigns 0
to the field before `self.positions.remove(position)`. -/
theorem contracts_remaining_nonzero_at_close_cex :
    (revExitPosition revDefaultConfig pC4 .firstTarget true).1 = some pC4half ∧
    (revExitPosition revDefaultConfig pC4half .secondTarget false).1 = none ∧
    pC4half.contracts_remaining = 1 := by
  refine ⟨?_, ?_, rfl⟩ <;>
    norm_num [revExitPosition, pC4, pC4half, revDefaultConfig]

/-- Witness for C4: a fresh 2-contract position force-closed in one step has
sold exactly the configured count. -/
theorem contracts_remaining_lifecycle_witness :
    (revLifeRun revDefaultConfig [inpForce] (some pC4)).2 = revDefaultConfig.contracts :=
  (contracts_remaining_lifecycle revDefaultConfig [inpForce] pC4 rfl rfl).2.2.1
    (by norm_num [revLifeRun, revLifeRun_none, revLifeStep, revExitPosition, inpForce])

/-- C5 / code bug in `SPYORBStrategy.exit_all`.  With 3 contracts: the
first-target partial sell is `contracts // 2 = 1` (as specified), but the
subsequent full exit sells `contracts // 2 = 1` again instead of the
remaining `3 - 1 = 2` — only 2 of 3 contracts are ever sold while all
position state is reset, so one contract is silently left unmanaged.
`SPYREVStrategy.exit_position` implements the spec correctly: the same
scenario sells `1` then the tracked remainder `2`, in total exactly 3. -/
theorem orb_exit_all_half_leak :
    (orbManage orbCfgC5 orbEnvA 6 tsOrb orbStateC5).2 = [OrbEvent.sellHalf 1] ∧
    (orbManage orbCfgC5 orbEnvB 6 tsOrb
        (orbManage orbCfgC5 orbEnvA 6 tsOrb orbStateC5).1).2 =
      [OrbEvent.exitAll 1 .secondTarget] ∧
    (orbManage orbCfgC5 orbEnvB 6 tsOrb
        (orbManage orbCfgC5 orbEnvA 6 tsOrb orbStateC5).1).1.position = none ∧
    revLifeRun revCfgC5 [inpC5A, inpC5B] (some pC5) = (none, 3) := by
  have hA : orbManage orbCfgC5 orbEnvA 6 tsOrb orbStateC5 =
      ({ orbStateC5 with half_position_closed := true }, [OrbEvent.sellHalf 1]) := by
    norm_num [orbManage, orbExitAll, orbCfgC5, orbDefaultConfig, orbEnvA, orbStateC5,
      tsOrb, barQ]
  refine ⟨by rw [hA], ?_, ?_, ?_⟩
  · rw [hA]
    norm_num [orbManage, orbExitAll, orbCfgC5, orbDefaultConfig, orbEnvB, orbStateC5,
      tsOrb, barQ]
  · rw [hA]
    norm_num [orbManage, orbExitAll, orbCfgC5, orbDefaultConfig, orbEnvB, orbStateC5,
      tsOrb, barQ]
  · norm_num [revLifeRun, revLifeRun_none, revLifeStep, revManageOne, revCheckStopLoss,
      revCheckProfitTargets, revExitPosition, soldQty, revCfgC5, revDefaultConfig,
      pC5, inpC5A, inpC5B]

lemma mem_revCloseAllPositions (cfg : RevConfig) (reason : ExitReason)
    (ps : List RevPosition) (p : RevPosition) (hp : p ∈ ps) :
    RevEvent.sell p.pid p.contracts_remaining reason false ∈
      revCloseAllPositions cfg reason ps := by
  unfold revCloseAllPositions
  rw [List.mem_flatten]
  refine ⟨(revExitPosition cfg p reason false).2, List.mem_map_of_mem _ hp, ?_⟩
  simp [revExitPosition]

/-- C6 (amended).  When the force-close gate has been reached during market
hours with open positions, every open position is fully exited with the
force-close reason on that very cycle regardless of profit/loss state.
(The claim's second half is false: new entries are NOT blocked from that
point on — see the counterexample — because `can_open_new_trades` compares
against the separate no-new-trades time, 15:30 by default, which with the
default 15:00 market close never binds before the session ends.) -/
theorem force_close_exits_all (cfg : RevConfig) (env : RevEnv) (s : RevState)
    (hopen : revIsMarketOpen cfg env.now = true)
    (hfc : revIsForceCloseTime cfg env.now = true) :
    ∀ p ∈ s.positions,
      RevEvent.sell p.pid p.contracts_remaining .forceClose false ∈
        (revCycle cfg env s).2 := by
  intro p hp
  have hne : s.positions.isEmpty = false := by
    cases hps : s.positions with
    | nil => rw [hps] at hp; cases hp
    | cons a l => rfl
  have hmem := mem_revCloseAllPositions cfg .forceClose s.positions p hp
  suffices key : ∀ s' evs, revCycle cfg env s = (s', evs) →
      RevEvent.sell p.pid p.contracts_remaining .forceClose false ∈ evs by
    exact key _ _ rfl
  intro s' evs heq
  simp only [revCycle, hopen, hfc, hne, Bool.not_true, Bool.false_eq_true, if_false,
    Bool.not_false, Bool.and_self, if_true] at heq
  repeat' split at heq
  all_goals
    (cases heq
     simp_all [List.mem_append])

set_option maxHeartbeats 2000000 in
/-- Counterexample to C6 as stated: at 14:56 (past the 14:55 force-close
gate, market still open until 15:00) with a CALL open, the cycle does
force-close the old position — but the SAME cycle then arms a fresh RSI
signal, confirms it, and BUYS a new CALL: entries are not blocked after the
force-close gate, since `can_open_new_trades` tests the 15:30
no-new-trades time instead. -/
theorem entry_after_force_close_cex :
    revIsForceCloseTime revCfgShort envC6.now = true ∧
    sC6.positions ≠ [] ∧
    revCycle revCfgShort envC6 sC6 =
      (⟨[⟨1, .call, 100, 3, 100, 60, 2, false⟩], none, none, true, 2⟩,
        [RevEvent.sell 0 2 .forceClose false, RevEvent.buy 1 2]) := by
  refine ⟨rfl, by simp [sC6], ?_⟩
  norm_num [revCycle, revIsMarketOpen, revIsForceCloseTime, revShouldStartMonitoring,
    revCanOpenNewTrades, revCloseAllPositions, revExitPosition, revCheckRsiSignal,
    rsiAt, gainAvg, lossAvg, gainPart, lossPart, revCheckEntryConditions, ewmAt,
    revEnterPosition, revHasPositionType, revManagePositions, revManageOne,
    revCheckStopLoss, revCheckProfitTargets, revCfgShort, revDefaultConfig,
    envC6, sC6, pOldC6, tsC6, barQ, round_eq, Finset.Icc_self]
  simp

/-- Witness for C6: the concrete 14:56 state — the old position's
force-close SELL is among the cycle's events. -/
theorem force_close_exits_all_witness :
    RevEvent.sell pOldC6.pid pOldC6.contracts_remaining .forceClose false ∈
      (revCycle revCfgShort envC6 sC6).2 :=
  force_close_exits_all revCfgShort envC6 sC6 (by rfl) (by rfl) pOldC6
    (by simp [sC6])

/-- C7 (amended).  The RSI-reversal variant enforces NO re-entry guard:
whenever the detector is idle and the gates are open, a new RSI extreme on
the last completed bar re-arms it immediately — in particular on the very
next cycle after a closed trade, with no long-EMA cross required (the REV
code computes no long EMA at all).  The guard the spec describes lives in
the BOSK variant instead: `wait_for_ema20_cross` blocks all new entries,
is set after a profitable full exit, and is cleared only when a completed
bar's close crosses the 20 EMA against the side of the last profitable
trade. -/
theorem reentry_guard_location :
    (∀ (cfg : RevConfig) (env : RevEnv) (s : RevState) (n : ℕ) (ts : ℕ → Bar) (price : ℚ),
        env.df = some (n, ts) →
        revIsMarketOpen cfg env.now = true →
        s.positions = [] →
        s.monitoring_started = true →
        s.rsi_signal = none →
        ¬ n < cfg.rsi_period + 5 →
        revCanOpenNewTrades cfg env.now = true →
        revCheckRsiSignal cfg n ts = some (.longSetup, price) →
        revCheckEntryConditions cfg (some .longSetup) n ts = none →
        (revCycle cfg env s).1.rsi_signal = some .longSetup) ∧
    (∀ (cfg : BoskConfig) (now : ℕ), boskCanOpenNewTrades cfg now true = false) ∧
    (∀ (cfg : BoskConfig) (optPrice : ℚ) (p : BoskPosition) (reason : ExitReason),
        optPrice > p.entry_option_price →
        (boskExitPosition cfg optPrice p reason false).2.2 =
          some (true, if p.ptype = .call then Direction.long else Direction.short)) ∧
    (∀ (s : BoskState) (lastClose ema20 : ℚ),
        s.wait_for_ema20_cross = true → s.last_profit_side = some .long →
        lastClose < ema20 →
        (boskCheckEma20CrossReset s lastClose ema20).wait_for_ema20_cross = false) := by
  refine ⟨?_, ?_, ?_, ?_⟩
  · intro cfg env s n ts price hdf hopen hpos hmon hsig hn hcan hrsi hent
    simp [revCycle, hdf, hopen, hpos, hmon, hsig, hn, hcan, hrsi, hent,
      revManagePositions]
  · intro cfg now
    unfold boskCanOpenNewTrades
    split <;> rfl
  · intro cfg o p reason h
    have hpnl : (0 : ℚ) < (o - p.entry_option_price) * 100 := by nlinarith
    simp [boskExitPosition, hpnl]
  · intro s lastClose ema20 hwait hside hlt
    simp [boskCheckEma20CrossReset, hwait, hside, hlt]

set_option maxHeartbeats 2000000 in
/-- Counterexample to C7 as stated: a cycle closes a profitable CALL at the
second profit target; the IMMEDIATELY following cycle sees a new RSI
oversold extreme (same kind as the closed LONG trade, every close at or
below all EMAs — no cross in any profit direction) and re-arms LONG_SETUP
straight away. -/
theorem rev_immediate_rearm_cex :
    revCycle revCfgShort envC7a sC7 =
      (⟨[], none, none, true, 1⟩, [RevEvent.sell 0 2 .secondTarget false]) ∧
    (revCycle revCfgShort envC7b ⟨[], none, none, true, 1⟩).1.rsi_signal =
      some .longSetup := by
  constructor
  · norm_num [revCycle, revIsMarketOpen, revIsForceCloseTime, revShouldStartMonitoring,
      revCanOpenNewTrades, revCloseAllPositions, revExitPosition, revCheckRsiSignal,
      rsiAt, gainAvg, lossAvg, gainPart, lossPart, revCheckEntryConditions, ewmAt,
      revEnterPosition, revHasPositionType, revManagePositions, revManageOne,
      revCheckStopLoss, revCheckProfitTargets, revCfgShort, revDefaultConfig,
      envC7a, sC7, pOldC7, tsFlat100, barQ, round_eq, Finset.Icc_self]
  · norm_num [revCycle, revIsMarketOpen, revIsForceCloseTime, revShouldStartMonitoring,
      revCanOpenNewTrades, revCloseAllPositions, revExitPosition, revCheckRsiSignal,
      rsiAt, gainAvg, lossAvg, gainPart, lossPart, revCheckEntryConditions, ewmAt,
      revEnterPosition, revHasPositionType, revManagePositions, revManageOne,
      revCheckStopLoss, revCheckProfitTargets, revCfgShort, revDefaultConfig,
      envC7b, tsC7, barQ, round_eq, Finset.Icc_self]
    simp

/-- Witness for C7 at concrete inputs: the post-close state re-arms on
`tsC7`; a BOSK guard in force blocks entries at 11:06; a profitable BOSK
exit (quote 3 over entry 2) arms the guard; a LONG-side guard clears on a
close 50 under EMA20 60. -/
theorem reentry_guard_location_witness :
    (revCycle revCfgShort envC7b sC7w).1.rsi_signal = some .longSetup ∧
    boskCanOpenNewTrades boskDefaultConfig 40000 true = false ∧
    (boskExitPosition boskDefaultConfig 3 pB1 .secondTarget false).2.2 =
      some (true, if pB1.ptype = .call then Direction.long else Direction.short) ∧
    (boskCheckEma20CrossReset ⟨[], true, some .long, true, 0⟩ 50 60).wait_for_ema20_cross =
      false := by
  refine ⟨reentry_guard_location.1 revCfgShort envC7b sC7w 6 tsC7 60 rfl rfl rfl rfl rfl
      (by norm_num [revCfgShort, revDefaultConfig]) rfl ?_ ?_,
    reentry_guard_location.2.1 boskDefaultConfig 40000,
    reentry_guard_location.2.2.1 boskDefaultConfig 3 pB1 .secondTarget
      (by norm_num [pB1]),
    reentry_guard_location.2.2.2 ⟨[], true, some .long, true, 0⟩ 50 60 rfl rfl
      (by norm_num)⟩
  · norm_num [revCheckRsiSignal, rsiAt, gainAvg, lossAvg, gainPart, lossPart,
      revCfgShort, revDefaultConfig, tsC7, barQ, Finset.Icc_self]
  · norm_num [revCheckEntryConditions, ewmAt, revCfgShort, revDefaultConfig, tsC7,
      barQ]
    intro _ h
    cases h
